import Mathlib

/-!
# Verification of the Hetzner MCP server layer

A shallow embedding of `mcp_hetzner/server.py`: the shape converters, the
pydantic request models, the `authenticate` credential resolver and every
MCP tool handler are translated into Lean.  The provider SDK (`hcloud`
client) is modelled as a record of fallible operations (`Client`): each
operation may return a value or raise a Python exception (`PyErr`).
Handlers run in a writer/except monad `M` that records the exact sequence
of provider calls issued (`Trace`), so that statements of the form
"no resize/detach/mutation/polling call is made" are about the recorded
call trace.
-/

namespace McpHetzner

/-- A serializable Python value: the handlers build and return plain
dictionaries (`Dict[str, Any]`). -/
inductive Value where
  | null : Value
  | bool : Bool → Value
  | int : Int → Value
  | str : String → Value
  | list : List Value → Value
  | dict : List (String × Value) → Value
deriving Repr

/-- A Python exception raised by a provider call; `msg` is `str(e)`. -/
structure PyErr where
  msg : String
deriving Repr, DecidableEq

/-- The single-quote character, used in the Python error message texts. -/
def sq : String := String.singleton (Char.ofNat 39)

/-- `{"error": msg}` — the error envelope every handler produces on failure. -/
def errDict (msg : String) : Value :=
  Value.dict [("error", Value.str msg)]

/-- Python truthiness of an optional string: `None` and `""` are falsy. -/
def truthyStr : Option String → Bool
  | none => false
  | some s => !(s == "")

/-- Python truthiness of an optional integer: `None` and `0` are falsy. -/
def truthyInt : Option Int → Bool
  | none => false
  | some n => !(n == 0)

/-- Python truthiness of an optional list: `None` and `[]` are falsy. -/
def truthyList {α : Type} : Option (List α) → Bool
  | none => false
  | some l => !l.isEmpty

/-- A timestamp object; `isoformat()` renders it as `iso`. -/
structure Timestamp where
  iso : String
deriving Repr, DecidableEq

/-- `t.isoformat() if t else None`, the rendering used for every timestamp. -/
def optTime : Option Timestamp → Value
  | some t => Value.str t.iso
  | none => Value.null

/-- An optional string rendered as a value (`None` becomes `null`). -/
def optStr : Option String → Value
  | some s => Value.str s
  | none => Value.null

/-- An optional integer rendered as a value (`None` becomes `null`). -/
def optInt : Option Int → Value
  | some n => Value.int n
  | none => Value.null

/-! ## Provider resource objects (the `hcloud` domain classes)

Only the attributes the server layer reads are modelled.  Attributes that
are merely copied verbatim into the response dictionary are typed `Value`;
attributes that the code branches on (absence checks, truthiness, size
comparisons) or interpolates into messages are typed precisely. -/

/-- `server.server_type` sub-object: only `.name` is read. -/
structure ServerTypeRef where
  name : String
deriving Repr, DecidableEq

/-- `server.image` sub-object: only `.name` is read (it may be `None`). -/
structure ImageRef where
  name : Option String
deriving Repr, DecidableEq

/-- A location object; `.name` is read by the converters, the remaining
fields are emitted verbatim by `list_locations`. -/
structure Location where
  id : Value
  name : String
  description : Value
  country : Value
  city : Value
  latitude : Value
  longitude : Value
  network_zone : Value
deriving Repr

/-- `server.datacenter`: `.name` and the nested optional `.location`. -/
structure Datacenter where
  name : String
  location : Option Location

/-- `public_net.ipv4` / `public_net.ipv6` sub-object: only `.ip` is read. -/
structure IpRef where
  ip : Value
deriving Repr

/-- `server.public_net` with its optional `ipv4`/`ipv6` sub-objects. -/
structure PublicNet where
  ipv4 : Option IpRef
  ipv6 : Option IpRef

/-- `server.protection` dictionary with its two keys. -/
structure ServerProtection where
  delete : Bool
  rebuild : Bool
deriving Repr, DecidableEq

/-- A volume reference inside `server.volumes`: only `.id` is read. -/
structure VolumeRef where
  id : Int
deriving Repr, DecidableEq

/-- An `hcloud` Server object, with every attribute `server_to_dict` reads. -/
structure Server where
  id : Int
  name : String
  status : Value
  created : Option Timestamp
  server_type : Option ServerTypeRef
  image : Option ImageRef
  datacenter : Option Datacenter
  public_net : Option PublicNet
  included_traffic : Value
  outgoing_traffic : Value
  ingoing_traffic : Value
  backup_window : Value
  rescue_enabled : Value
  locked : Value
  protection : Option ServerProtection
  labels : Value
  volumes : Option (List VolumeRef)

/-- A server reference inside `volume.server`: only `.id` is read. -/
structure ServerRef where
  id : Int
deriving Repr, DecidableEq

/-- `volume.location` sub-object: only `.name` is read. -/
structure LocationRef where
  name : String
deriving Repr, DecidableEq

/-- `volume.protection` dictionary with its single read key. -/
structure VolumeProtection where
  delete : Bool
deriving Repr, DecidableEq

/-- An `hcloud` Volume object, with every attribute the handlers read. -/
structure Volume where
  id : Int
  name : String
  size : Int
  location : Option LocationRef
  server : Option ServerRef
  linux_device : Value
  protection : Option VolumeProtection
  labels : Value
  format : Value
  created : Option Timestamp
  status : Value

/-- An `hcloud` SSHKey object. -/
structure SSHKey where
  id : Int
  name : String
  fingerprint : Value
  public_key : Value
  labels : Value
  created : Option Timestamp

/-- An `hcloud` FirewallRule: `direction`, `protocol`, `source_ips` are
always present; `port`, `destination_ips`, `description` are optional. -/
structure FirewallRule where
  direction : String
  protocol : String
  source_ips : List String
  port : Option String
  destination_ips : Option (List String)
  description : Option String
deriving Repr, DecidableEq

/-- `FirewallResourceLabelSelector`: only `.selector` is read. -/
structure LabelSelector where
  selector : String
deriving Repr, DecidableEq

/-- A nested resource inside `applied_to_resources` (one level deep). -/
structure AppliedResource where
  type : String
  server : Option Server

/-- An `hcloud` FirewallResource (an `applied_to` entry, or a target being
applied/removed): a type tag plus optional server / label-selector parts. -/
structure FirewallResource where
  type : String
  server : Option Server
  label_selector : Option LabelSelector
  applied_to_resources : Option (List AppliedResource)

/-- An `hcloud` Firewall object. -/
structure Firewall where
  id : Int
  name : String
  rules : Option (List FirewallRule)
  applied_to : Option (List FirewallResource)
  labels : Value
  created : Option Timestamp

/-- An `hcloud` Action object: the descriptor of an asynchronous
provider-side operation. -/
structure Action where
  id : Int
  status : Value
  command : Value
  progress : Value
  error : Value
  started : Option Timestamp
  finished : Option Timestamp

/-- An image object as listed by `list_images`. -/
structure Image where
  id : Value
  name : Option String
  description : Value
  type : Value
  status : Value
  os_flavor : Value
  os_version : Value
  architecture : Value
  disk_size : Value
  created : Option Timestamp

/-- A price entry of a server type; `price_hourly` / `price_monthly` are
`none` when the attribute is absent (`hasattr` is false). -/
structure Price where
  price_hourly : Option Value
  price_monthly : Option Value
  location : Option LocationRef

/-- A server type object as listed by `list_server_types`. -/
structure ServerType where
  id : Value
  name : String
  description : Value
  cores : Value
  memory : Value
  disk : Value
  storage_type : Value
  cpu_type : Value
  prices : Option (List Price)

/-- `client.servers.create(...)` response: server, optional action and the
optional root password. -/
structure CreateServerResponse where
  server : Server
  action : Option Action
  root_password : Option String

/-- `client.firewalls.create(...)` response. -/
structure CreateFirewallResponse where
  firewall : Firewall
  actions : Option (List Action)

/-- `client.volumes.create(...)` response. -/
structure CreateVolumeResponse where
  volume : Volume
  action : Option Action
  next_actions : Option (List Action)

/-! ## Shape converters (`server.py` lines 97–220)

Pure functions from provider objects to plain dictionaries, translated
clause by clause from the source. -/

/-- `server_to_dict` (`server.py` line 97). -/
def server_to_dict (server : Server) : Value :=
  Value.dict [
    ("id", Value.int server.id),
    ("name", Value.str server.name),
    ("status", server.status),
    ("created", optTime server.created),
    ("server_type", match server.server_type with
      | some st => Value.str st.name
      | none => Value.null),
    ("image", match server.image with
      | some img => optStr img.name
      | none => Value.null),
    ("datacenter", match server.datacenter with
      | some dc => Value.str dc.name
      | none => Value.null),
    ("location", match server.datacenter with
      | some dc => match dc.location with
        | some loc => Value.str loc.name
        | none => Value.null
      | none => Value.null),
    ("public_net", Value.dict [
      ("ipv4", match server.public_net with
        | some pn => match pn.ipv4 with
          | some v4 => v4.ip
          | none => Value.null
        | none => Value.null),
      ("ipv6", match server.public_net with
        | some pn => match pn.ipv6 with
          | some v6 => v6.ip
          | none => Value.null
        | none => Value.null)]),
    ("included_traffic", server.included_traffic),
    ("outgoing_traffic", server.outgoing_traffic),
    ("ingoing_traffic", server.ingoing_traffic),
    ("backup_window", server.backup_window),
    ("rescue_enabled", server.rescue_enabled),
    ("locked", server.locked),
    ("protection", Value.dict [
      ("delete", match server.protection with
        | some p => Value.bool p.delete
        | none => Value.bool false),
      ("rebuild", match server.protection with
        | some p => Value.bool p.rebuild
        | none => Value.bool false)]),
    ("labels", server.labels),
    ("volumes", match server.volumes with
      | some vs => Value.list (vs.map (fun v => Value.int v.id))
      | none => Value.list [])]

/-- `volume_to_dict` (`server.py` line 134). -/
def volume_to_dict (volume : Volume) : Value :=
  Value.dict [
    ("id", Value.int volume.id),
    ("name", Value.str volume.name),
    ("size", Value.int volume.size),
    ("location", match volume.location with
      | some loc => Value.str loc.name
      | none => Value.null),
    ("server", match volume.server with
      | some srv => Value.int srv.id
      | none => Value.null),
    ("linux_device", volume.linux_device),
    ("protection", Value.dict [
      ("delete", match volume.protection with
        | some p => Value.bool p.delete
        | none => Value.bool false)]),
    ("labels", volume.labels),
    ("format", volume.format),
    ("created", optTime volume.created),
    ("status", volume.status)]

/-- `ssh_key_to_dict` (`server.py` line 154). -/
def ssh_key_to_dict (ssh_key : SSHKey) : Value :=
  Value.dict [
    ("id", Value.int ssh_key.id),
    ("name", Value.str ssh_key.name),
    ("fingerprint", ssh_key.fingerprint),
    ("public_key", ssh_key.public_key),
    ("labels", ssh_key.labels),
    ("created", optTime ssh_key.created)]

/-- The per-rule record built by the loop body inside `firewall_to_dict`
(`server.py` lines 172–184): the three mandatory fields, then `port`,
`destination_ips`, `description` appended only when truthy. -/
def ruleToDict (rule : FirewallRule) : Value :=
  Value.dict (
    [("direction", Value.str rule.direction),
     ("protocol", Value.str rule.protocol),
     ("source_ips", Value.list (rule.source_ips.map Value.str))]
    ++ (if truthyStr rule.port then
          [("port", optStr rule.port)] else [])
    ++ (if truthyList rule.destination_ips then
          [("destination_ips", match rule.destination_ips with
            | some ips => Value.list (ips.map Value.str)
            | none => Value.null)] else [])
    ++ (if truthyStr rule.description then
          [("description", optStr rule.description)] else []))

/-- The nested record built for one `applied_to_resources` entry
(`server.py` lines 202–209). -/
def appliedResourceToDict (r : AppliedResource) : Value :=
  Value.dict (
    [("type", Value.str r.type)]
    ++ (match r.server with
        | some srv => [("server", Value.dict [
            ("id", Value.int srv.id), ("name", Value.str srv.name)])]
        | none => []))

/-- The record built by the `applied_to` loop body inside
`firewall_to_dict` (`server.py` lines 189–211). -/
def resourceToDict (resource : FirewallResource) : Value :=
  Value.dict (
    [("type", Value.str resource.type)]
    ++ (match resource.server with
        | some srv => [("server", Value.dict [
            ("id", Value.int srv.id), ("name", Value.str srv.name)])]
        | none => [])
    ++ (match resource.label_selector with
        | some ls => [("label_selector", Value.dict [
            ("selector", Value.str ls.selector)])]
        | none => [])
    ++ (if truthyList resource.applied_to_resources then
          [("applied_to_resources", match resource.applied_to_resources with
            | some ars => Value.list (ars.map appliedResourceToDict)
            | none => Value.null)] else []))

/-- `firewall_to_dict` (`server.py` line 167). -/
def firewall_to_dict (firewall : Firewall) : Value :=
  Value.dict [
    ("id", Value.int firewall.id),
    ("name", Value.str firewall.name),
    ("rules", match firewall.rules with
      | some rs => Value.list (rs.map ruleToDict)
      | none => Value.list []),
    ("applied_to", match firewall.applied_to with
      | some ats => Value.list (ats.map resourceToDict)
      | none => Value.list []),
    ("labels", firewall.labels),
    ("created", optTime firewall.created)]

/-- The action dictionary that every handler builds inline (the identical
literal at e.g. `server.py` lines 498–506, 535–543, 691–699, …). -/
def action_to_dict (action : Action) : Value :=
  Value.dict [
    ("id", Value.int action.id),
    ("status", action.status),
    ("command", action.command),
    ("progress", action.progress),
    ("error", action.error),
    ("started", optTime action.started),
    ("finished", optTime action.finished)]

/-- `{...} if action else None` — the optional-action rendering. -/
def optAction : Option Action → Value
  | some a => action_to_dict a
  | none => Value.null

/-- `[...] if actions else None` — Python truthiness: `None` and the empty
list both render as `null`. -/
def optActions : Option (List Action) → Value
  | some l => if l.isEmpty then Value.null else Value.list (l.map action_to_dict)
  | none => Value.null

/-! ## The provider call trace and the handler monad

Every provider SDK invocation a handler issues is recorded as a
`ClientCall`.  The `actionsGetById` / `actionsWait` calls are the SDK's
Action-polling operations; they are part of the SDK surface but — as the
theorems show — never appear in any handler's trace. -/

/-- A descriptor of one provider SDK call, identified by the operation and
the identifying arguments it was given. -/
inductive ClientCall where
  | serversGetAll : ClientCall
  | serversGetById : Int → ClientCall
  | serversCreate : String → String → ClientCall
  | serversDelete : Int → ClientCall
  | serversPowerOn : Int → ClientCall
  | serversPowerOff : Int → ClientCall
  | serversReboot : Int → ClientCall
  | imagesGetAll : ClientCall
  | imagesGetByName : String → ClientCall
  | serverTypesGetAll : ClientCall
  | serverTypesGetByName : String → ClientCall
  | locationsGetAll : ClientCall
  | locationsGetByName : Option String → ClientCall
  | firewallsGetAll : ClientCall
  | firewallsGetById : Int → ClientCall
  | firewallsCreate : String → ClientCall
  | firewallsUpdate : Int → ClientCall
  | firewallsDelete : Int → ClientCall
  | firewallsSetRules : Int → ClientCall
  | firewallsApplyToResources : Int → ClientCall
  | firewallsRemoveFromResources : Int → ClientCall
  | volumesGetAll : ClientCall
  | volumesGetById : Int → ClientCall
  | volumesCreate : String → Int → ClientCall
  | volumesDelete : Int → ClientCall
  | volumesAttach : Int → Int → ClientCall
  | volumesDetach : Int → ClientCall
  | volumesResize : Int → Int → ClientCall
  | sshKeysGetAll : ClientCall
  | sshKeysGetById : Int → ClientCall
  | sshKeysGetByName : String → ClientCall
  | sshKeysCreate : String → ClientCall
  | sshKeysUpdate : Int → ClientCall
  | sshKeysDelete : Int → ClientCall
  | actionsGetById : Int → ClientCall
  | actionsWait : Int → ClientCall
deriving Repr, DecidableEq

/-- The ordered sequence of provider calls a handler issued. -/
abbrev Trace := List ClientCall

/-- The handler-body monad: an outcome (normal value or raised Python
exception) together with the trace of provider calls issued so far.  A
raised exception keeps the calls already made. -/
structure M (α : Type) where
  res : Except PyErr α
  tr : Trace

/-- Return. -/
def M.pure {α : Type} (a : α) : M α := ⟨Except.ok a, []⟩

/-- Sequencing: the second computation runs only if the first returned
normally; traces concatenate. -/
def M.bind {α β : Type} (x : M α) (f : α → M β) : M β :=
  match x.res with
  | Except.ok a => ⟨(f a).res, x.tr ++ (f a).tr⟩
  | Except.error e => ⟨Except.error e, x.tr⟩

instance : Monad M where
  pure := M.pure
  bind := M.bind

/-- `try x except Exception as e: h e` — the Python exception handler. -/
def M.catch {α : Type} (x : M α) (h : PyErr → M α) : M α :=
  match x.res with
  | Except.ok _ => x
  | Except.error e => ⟨(h e).res, x.tr ++ (h e).tr⟩

/-- Issue one provider call: record it in the trace and surface the
client-chosen outcome. -/
def callOp {α : Type} (c : ClientCall) (r : Except PyErr α) : M α :=
  ⟨r, [c]⟩

/-- The top-level `try ... except Exception as e: return {"error": pre + str(e)}`
wrapper that closes every tool handler, producing the returned
dictionary and the full call trace. -/
def runH (pre : String) (body : M Value) : Value × Trace :=
  match body.res with
  | Except.ok v => (v, body.tr)
  | Except.error e => (errDict (pre ++ e.msg), body.tr)

/-! ## The provider client (the `hcloud.Client` facade)

Each field is one SDK operation the server layer uses, free to return any
value or raise any exception.  Theorems quantify over all clients, so they
cover arbitrary provider behaviour including failures. -/

/-- The provider SDK client as seen by the handlers. -/
structure Client where
  servers_get_all : Except PyErr (List Server)
  servers_get_by_id : Int → Except PyErr (Option Server)
  servers_create : String → ServerType → Image → Location → List SSHKey →
    Except PyErr CreateServerResponse
  servers_delete : Server → Except PyErr Action
  servers_power_on : Server → Except PyErr Action
  servers_power_off : Server → Except PyErr Action
  servers_reboot : Server → Except PyErr Action
  images_get_all : Except PyErr (List Image)
  images_get_by_name : String → Except PyErr (Option Image)
  server_types_get_all : Except PyErr (List ServerType)
  server_types_get_by_name : String → Except PyErr (Option ServerType)
  locations_get_all : Except PyErr (List Location)
  locations_get_by_name : Option String → Except PyErr (Option Location)
  firewalls_get_all : Except PyErr (List Firewall)
  firewalls_get_by_id : Int → Except PyErr (Option Firewall)
  firewalls_create : String → Option (List FirewallRule) → Value →
    Option (List FirewallResource) → Except PyErr CreateFirewallResponse
  firewalls_update : Firewall → Option String → Value → Except PyErr Firewall
  firewalls_delete : Firewall → Except PyErr Bool
  firewalls_set_rules : Firewall → List FirewallRule → Except PyErr (List Action)
  firewalls_apply_to_resources : Firewall → List FirewallResource →
    Except PyErr (List Action)
  firewalls_remove_from_resources : Firewall → List FirewallResource →
    Except PyErr (List Action)
  volumes_get_all : Except PyErr (List Volume)
  volumes_get_by_id : Int → Except PyErr (Option Volume)
  volumes_create : String → Int → Option Location → Option Server →
    Option Bool → Option String → Value → Except PyErr CreateVolumeResponse
  volumes_delete : Volume → Except PyErr Bool
  volumes_attach : Volume → Server → Option Bool → Except PyErr Action
  volumes_detach : Volume → Except PyErr Action
  volumes_resize : Volume → Int → Except PyErr Action
  ssh_keys_get_all : Except PyErr (List SSHKey)
  ssh_keys_get_by_id : Int → Except PyErr (Option SSHKey)
  ssh_keys_get_by_name : String → Except PyErr (Option SSHKey)
  ssh_keys_create : String → String → Value → Except PyErr SSHKey
  ssh_keys_update : SSHKey → String → Value → Except PyErr SSHKey
  ssh_keys_delete : SSHKey → Except PyErr Bool
  actions_get_by_id : Int → Except PyErr (Option Action)
  actions_wait : Action → Except PyErr Action

/-! ## Request models (`server.py` lines 224–378)

The pydantic parameter schemas; `Optional` fields become `Option`.
Defaults (`location = "nbg1"`, `automount = False`) are filled in by
pydantic before the handler runs, so they are defaults of the structure
fields here. -/

/-- `CreateServerParams` (`server.py` line 224). -/
structure CreateServerParams where
  name : String
  server_type : String
  image : String
  location : Option String := some "nbg1"
  ssh_keys : Option (List Int) := none

/-- `ServerIdParam` (`server.py` line 237). -/
structure ServerIdParam where
  server_id : Int

/-- `FirewallIdParam` (`server.py` line 242). -/
structure FirewallIdParam where
  firewall_id : Int

/-- `FirewallRuleParam` (`server.py` line 247). -/
structure FirewallRuleParam where
  direction : String
  protocol : String
  source_ips : List String
  port : Option String := none
  destination_ips : Option (List String) := none
  description : Option String := none

/-- `FirewallResourceParam` (`server.py` line 263). -/
structure FirewallResourceParam where
  type : String
  server_id : Option Int := none
  label_selector : Option String := none

/-- `CreateFirewallParams` (`server.py` line 276). -/
structure CreateFirewallParams where
  name : String
  rules : Option (List FirewallRuleParam) := none
  resources : Option (List FirewallResourceParam) := none
  labels : Value := Value.null

/-- `UpdateFirewallParams` (`server.py` line 290). -/
structure UpdateFirewallParams where
  firewall_id : Int
  name : Option String := none
  labels : Value := Value.null

/-- `SetFirewallRulesParams` (`server.py` line 299). -/
structure SetFirewallRulesParams where
  firewall_id : Int
  rules : List FirewallRuleParam

/-- `FirewallResourcesParams` (`server.py` line 305). -/
structure FirewallResourcesParams where
  firewall_id : Int
  resources : List FirewallResourceParam

/-- `VolumeIdParam` (`server.py` line 313). -/
structure VolumeIdParam where
  volume_id : Int

/-- `CreateVolumeParams` (`server.py` line 318). -/
structure CreateVolumeParams where
  name : String
  size : Int
  location : Option String := none
  server : Option Int := none
  automount : Option Bool := some false
  format : Option String := none
  labels : Value := Value.null

/-- `AttachVolumeParams` (`server.py` line 339). -/
structure AttachVolumeParams where
  volume_id : Int
  server_id : Int
  automount : Option Bool := some false

/-- `ResizeVolumeParams` (`server.py` line 350). -/
structure ResizeVolumeParams where
  volume_id : Int
  size : Int

/-- `SSHKeyIdParam` (`server.py` line 359). -/
structure SSHKeyIdParam where
  ssh_key_id : Int

/-- `CreateSSHKeyParams` (`server.py` line 364). -/
structure CreateSSHKeyParams where
  name : String
  public_key : String
  labels : Value := Value.null

/-- `UpdateSSHKeyParams` (`server.py` line 373). -/
structure UpdateSSHKeyParams where
  ssh_key_id : Int
  name : String
  labels : Value := Value.null

/-! ## Error message texts

The exact f-string texts from the handlers (Lean has no f-strings, so they
are assembled by concatenation; `sq` is the single-quote character). -/

/-- `"Server with ID {id} not found"`. -/
def serverNotFoundMsg (i : Int) : String :=
  "Server with ID " ++ toString i ++ " not found"

/-- `"Firewall with ID {id} not found"`. -/
def firewallNotFoundMsg (i : Int) : String :=
  "Firewall with ID " ++ toString i ++ " not found"

/-- `"Volume with ID {id} not found"`. -/
def volumeNotFoundMsg (i : Int) : String :=
  "Volume with ID " ++ toString i ++ " not found"

/-- `"SSH key with ID {id} not found"`. -/
def sshKeyNotFoundMsg (i : Int) : String :=
  "SSH key with ID " ++ toString i ++ " not found"

/-- `"Volume with ID {id} is not attached to any server"`. -/
def volumeNotAttachedMsg (i : Int) : String :=
  "Volume with ID " ++ toString i ++ " is not attached to any server"

/-- Python `str` of a list of strings: `['a', 'b']`. -/
def pyStrList (names : List String) : String :=
  "[" ++ String.intercalate ", " (names.map (fun n => sq ++ n ++ sq)) ++ "]"

/-- Python `str` of a list of optional strings (`None` prints bare). -/
def pyOptStrList (names : List (Option String)) : String :=
  "[" ++ String.intercalate ", " (names.map (fun n =>
    match n with
    | some s => sq ++ s ++ sq
    | none => "None")) ++ "]"

/-- How an `Optional[str]` parameter prints inside an f-string. -/
def optStrDisplay : Option String → String
  | some s => s
  | none => "None"

/-- `"Server ID is required when resource type is 'server'"`. -/
def serverIdRequiredMsg : String :=
  "Server ID is required when resource type is " ++ sq ++ "server" ++ sq

/-- `"Label selector is required when resource type is 'label_selector'"`. -/
def labelSelectorRequiredMsg : String :=
  "Label selector is required when resource type is " ++ sq ++ "label_selector" ++ sq

/-- `"Invalid resource type: {t}. Must be 'server' or 'label_selector'"`. -/
def invalidResourceTypeMsg (t : String) : String :=
  "Invalid resource type: " ++ t ++ ". Must be " ++ sq ++ "server" ++ sq ++
    " or " ++ sq ++ "label_selector" ++ sq

/-! ## Tool handlers (`server.py` lines 384–1536)

Each handler takes the provider client and its validated parameter model
and returns the response dictionary together with the trace of provider
calls it issued. -/

/-- `list_servers` (`server.py` line 385). -/
def list_servers (c : Client) : Value × Trace :=
  runH "Failed to list servers: " (
    M.bind (callOp ClientCall.serversGetAll c.servers_get_all) (fun servers =>
      M.pure (Value.dict [("servers", Value.list (servers.map server_to_dict))])))

/-- `get_server` (`server.py` line 402). -/
def get_server (c : Client) (p : ServerIdParam) : Value × Trace :=
  runH "Failed to get server: " (
    M.bind (callOp (ClientCall.serversGetById p.server_id)
        (c.servers_get_by_id p.server_id)) (fun srv =>
      match srv with
      | none => M.pure (errDict (serverNotFoundMsg p.server_id))
      | some server => M.pure (Value.dict [("server", server_to_dict server)])))

/-- The `ssh_keys` resolution loop inside `create_server` (`server.py`
lines 466–478): each integer ID is looked up; an ID that does not resolve
is silently skipped.  (The `isinstance(ssh_key, str)` branch is dead code
under the `List[int]` pydantic schema and is not modelled.) -/
def buildSshKeys (c : Client) : List Int → M (List SSHKey)
  | [] => M.pure []
  | k :: ks =>
    M.bind (callOp (ClientCall.sshKeysGetById k) (c.ssh_keys_get_by_id k)) (fun ko =>
      M.bind (buildSshKeys c ks) (fun rest =>
        M.pure (match ko with
          | some key => key :: rest
          | none => rest)))

/-- The inner `try` of `create_server` (`server.py` lines 435–489): either
an early-returned error dictionary (`Sum.inl`) or the create response. -/
def create_server_inner (c : Client) (p : CreateServerParams) :
    M (Sum Value CreateServerResponse) :=
  M.catch (
    M.bind (callOp ClientCall.serverTypesGetAll c.server_types_get_all) (fun server_types =>
    M.bind (callOp ClientCall.imagesGetAll c.images_get_all) (fun images =>
    M.bind (callOp ClientCall.locationsGetAll c.locations_get_all) (fun locations =>
    M.bind (callOp (ClientCall.serverTypesGetByName p.server_type)
        (c.server_types_get_by_name p.server_type)) (fun server_type_obj =>
    M.bind (callOp (ClientCall.imagesGetByName p.image)
        (c.images_get_by_name p.image)) (fun image_obj =>
    M.bind (callOp (ClientCall.locationsGetByName p.location)
        (c.locations_get_by_name p.location)) (fun location_obj =>
      match server_type_obj with
      | none => M.pure (Sum.inl (errDict ("Server type " ++ sq ++ p.server_type ++ sq ++
          " not found. Available types: " ++ pyStrList (server_types.map (fun st => st.name)))))
      | some st =>
        match image_obj with
        | none => M.pure (Sum.inl (errDict ("Image " ++ sq ++ p.image ++ sq ++
            " not found. Available images: " ++ pyOptStrList (images.map (fun img => img.name)))))
        | some img =>
          match location_obj with
          | none => M.pure (Sum.inl (errDict ("Location " ++ sq ++ optStrDisplay p.location ++ sq ++
              " not found. Available locations: " ++ pyStrList (locations.map (fun l => l.name)))))
          | some loc =>
            M.bind (match p.ssh_keys with
              | some ks => buildSshKeys c ks
              | none => M.pure []) (fun ssh_keys =>
              M.bind (callOp (ClientCall.serversCreate p.name p.server_type)
                  (c.servers_create p.name st img loc ssh_keys)) (fun response =>
                M.pure (Sum.inr response)))))))))
  ) (fun e => M.pure (Sum.inl (errDict ("Failed to create server: " ++ e.msg))))

/-- `create_server` (`server.py` line 422). -/
def create_server (c : Client) (p : CreateServerParams) : Value × Trace :=
  runH "Failed to create server: " (
    M.bind (create_server_inner c p) (fun r =>
      match r with
      | Sum.inl v => M.pure v
      | Sum.inr response =>
        M.pure (Value.dict [
          ("server", server_to_dict response.server),
          ("action", optAction response.action),
          ("root_password", optStr response.root_password)])))

/-- `delete_server` (`server.py` line 516).  (The `if action` guard in the
source is a truthiness check on an always-present Action object.) -/
def delete_server (c : Client) (p : ServerIdParam) : Value × Trace :=
  runH "Failed to delete server: " (
    M.bind (callOp (ClientCall.serversGetById p.server_id)
        (c.servers_get_by_id p.server_id)) (fun srv =>
      match srv with
      | none => M.pure (errDict (serverNotFoundMsg p.server_id))
      | some server =>
        M.bind (callOp (ClientCall.serversDelete server.id)
            (c.servers_delete server)) (fun action =>
          M.pure (Value.dict [
            ("success", Value.bool true),
            ("action", action_to_dict action)]))))

/-- The per-image record built by `list_images` (`server.py` lines 565–576). -/
def image_to_listing (image : Image) : Value :=
  Value.dict [
    ("id", image.id),
    ("name", optStr image.name),
    ("description", image.description),
    ("type", image.type),
    ("status", image.status),
    ("os_flavor", image.os_flavor),
    ("os_version", image.os_version),
    ("architecture", image.architecture),
    ("size_gb", image.disk_size),
    ("created", optTime image.created)]

/-- `list_images` (`server.py` line 552). -/
def list_images (c : Client) : Value × Trace :=
  runH "Failed to list images: " (
    M.bind (callOp ClientCall.imagesGetAll c.images_get_all) (fun images =>
      M.pure (Value.dict [("images", Value.list (images.map image_to_listing))])))

/-- One price record of `list_server_types` (`server.py` lines 613–630):
each field is added only when the attribute is present. -/
def price_to_dict (price : Price) : Value :=
  Value.dict (
    (match price.price_hourly with
      | some v => [("price_hourly", v)]
      | none => [])
    ++ (match price.price_monthly with
      | some v => [("price_monthly", v)]
      | none => [])
    ++ (match price.location with
      | some loc => [("location", Value.str loc.name)]
      | none => []))

/-- The per-server-type record of `list_server_types` (`server.py` lines
599–631); `prices` keeps its initial `[]` when the attribute is absent or
empty. -/
def server_type_to_dict (st : ServerType) : Value :=
  Value.dict [
    ("id", st.id),
    ("name", Value.str st.name),
    ("description", st.description),
    ("cores", st.cores),
    ("memory_gb", st.memory),
    ("disk_gb", st.disk),
    ("storage_type", st.storage_type),
    ("cpu_type", st.cpu_type),
    ("prices", match st.prices with
      | some ps => Value.list (ps.map price_to_dict)
      | none => Value.list [])]

/-- `list_server_types` (`server.py` line 585). -/
def list_server_types (c : Client) : Value × Trace :=
  runH "Failed to list server types: " (
    M.bind (callOp ClientCall.serverTypesGetAll c.server_types_get_all) (fun sts =>
      M.pure (Value.dict [("server_types", Value.list (sts.map server_type_to_dict))])))

/-- The per-location record of `list_locations` (`server.py` lines 654–663). -/
def location_to_dict (location : Location) : Value :=
  Value.dict [
    ("id", location.id),
    ("name", Value.str location.name),
    ("description", location.description),
    ("country", location.country),
    ("city", location.city),
    ("latitude", location.latitude),
    ("longitude", location.longitude),
    ("network_zone", location.network_zone)]

/-- `list_locations` (`server.py` line 641). -/
def list_locations (c : Client) : Value × Trace :=
  runH "Failed to list locations: " (
    M.bind (callOp ClientCall.locationsGetAll c.locations_get_all) (fun locs =>
      M.pure (Value.dict [("locations", Value.list (locs.map location_to_dict))])))

/-- `power_on` (`server.py` line 672). -/
def power_on (c : Client) (p : ServerIdParam) : Value × Trace :=
  runH "Failed to power on server: " (
    M.bind (callOp (ClientCall.serversGetById p.server_id)
        (c.servers_get_by_id p.server_id)) (fun srv =>
      match srv with
      | none => M.pure (errDict (serverNotFoundMsg p.server_id))
      | some server =>
        M.bind (callOp (ClientCall.serversPowerOn server.id)
            (c.servers_power_on server)) (fun action =>
          M.pure (Value.dict [
            ("success", Value.bool true),
            ("action", action_to_dict action)]))))

/-- `power_off` (`server.py` line 708). -/
def power_off (c : Client) (p : ServerIdParam) : Value × Trace :=
  runH "Failed to power off server: " (
    M.bind (callOp (ClientCall.serversGetById p.server_id)
        (c.servers_get_by_id p.server_id)) (fun srv =>
      match srv with
      | none => M.pure (errDict (serverNotFoundMsg p.server_id))
      | some server =>
        M.bind (callOp (ClientCall.serversPowerOff server.id)
            (c.servers_power_off server)) (fun action =>
          M.pure (Value.dict [
            ("success", Value.bool true),
            ("action", action_to_dict action)]))))

/-- `reboot` (`server.py` line 745). -/
def reboot (c : Client) (p : ServerIdParam) : Value × Trace :=
  runH "Failed to reboot server: " (
    M.bind (callOp (ClientCall.serversGetById p.server_id)
        (c.servers_get_by_id p.server_id)) (fun srv =>
      match srv with
      | none => M.pure (errDict (serverNotFoundMsg p.server_id))
      | some server =>
        M.bind (callOp (ClientCall.serversReboot server.id)
            (c.servers_reboot server)) (fun action =>
          M.pure (Value.dict [
            ("success", Value.bool true),
            ("action", action_to_dict action)]))))

/-- `list_firewalls` (`server.py` line 784). -/
def list_firewalls (c : Client) : Value × Trace :=
  runH "Failed to list firewalls: " (
    M.bind (callOp ClientCall.firewallsGetAll c.firewalls_get_all) (fun fws =>
      M.pure (Value.dict [("firewalls", Value.list (fws.map firewall_to_dict))])))

/-- `get_firewall` (`server.py` line 801). -/
def get_firewall (c : Client) (p : FirewallIdParam) : Value × Trace :=
  runH "Failed to get firewall: " (
    M.bind (callOp (ClientCall.firewallsGetById p.firewall_id)
        (c.firewalls_get_by_id p.firewall_id)) (fun fw =>
      match fw with
      | none => M.pure (errDict (firewallNotFoundMsg p.firewall_id))
      | some firewall => M.pure (Value.dict [("firewall", firewall_to_dict firewall)])))

/-- The `FirewallRule(...)` construction from a rule parameter
(`server.py` lines 838–845 and 980–987). -/
def ruleOfParam (rp : FirewallRuleParam) : FirewallRule :=
  { direction := rp.direction
    protocol := rp.protocol
    source_ips := rp.source_ips
    port := rp.port
    destination_ips := rp.destination_ips
    description := rp.description }

/-- The `rules` preparation of `create_firewall` (`server.py` lines
833–846): `None` stays `None` and — by Python truthiness — an empty rules
list also leaves `rules = None`. -/
def prepRules (o : Option (List FirewallRuleParam)) : Option (List FirewallRule) :=
  match o with
  | some rs => if rs.isEmpty then none else some (rs.map ruleOfParam)
  | none => none

/-- The resource-target loop shared by `create_firewall`,
`apply_firewall_to_resources` and `remove_firewall_from_resources`
(`server.py` lines 852–879, 1035–1062, 1109–1136): processed in order,
with an early error return (`Sum.inl`) on the first invalid or
unresolvable entry. -/
def buildResources (c : Client) : List FirewallResourceParam →
    M (Sum Value (List FirewallResource))
  | [] => M.pure (Sum.inr [])
  | rp :: rest =>
    if rp.type == "server" then
      match rp.server_id with
      | none => M.pure (Sum.inl (errDict serverIdRequiredMsg))
      | some sid =>
        if sid == 0 then M.pure (Sum.inl (errDict serverIdRequiredMsg))
        else
          M.bind (callOp (ClientCall.serversGetById sid)
              (c.servers_get_by_id sid)) (fun srv =>
            match srv with
            | none => M.pure (Sum.inl (errDict (serverNotFoundMsg sid)))
            | some server =>
              M.bind (buildResources c rest) (fun r =>
                M.pure (match r with
                  | Sum.inl v => Sum.inl v
                  | Sum.inr rs => Sum.inr
                      ({ type := rp.type, server := some server,
                         label_selector := none,
                         applied_to_resources := none } :: rs))))
    else if rp.type == "label_selector" then
      match rp.label_selector with
      | none => M.pure (Sum.inl (errDict labelSelectorRequiredMsg))
      | some sel =>
        if sel == "" then M.pure (Sum.inl (errDict labelSelectorRequiredMsg))
        else
          M.bind (buildResources c rest) (fun r =>
            M.pure (match r with
              | Sum.inl v => Sum.inl v
              | Sum.inr rs => Sum.inr
                  ({ type := rp.type, server := none,
                     label_selector := some { selector := sel },
                     applied_to_resources := none } :: rs)))
    else
      M.pure (Sum.inl (errDict (invalidResourceTypeMsg rp.type)))

/-- `create_firewall` (`server.py` line 821).  The `resources`
preparation mirrors the source: `None` or an empty list (falsy) leaves
`resources = None`; otherwise the loop builds them, with early error
returns. -/
def create_firewall (c : Client) (p : CreateFirewallParams) : Value × Trace :=
  runH "Failed to create firewall: " (
    M.bind (match p.resources with
      | some rps =>
        if rps.isEmpty then M.pure (Sum.inr none)
        else M.bind (buildResources c rps) (fun r =>
          M.pure (match r with
            | Sum.inl v => Sum.inl v
            | Sum.inr rs => Sum.inr (some rs)))
      | none => M.pure (Sum.inr none)) (fun rr =>
      match rr with
      | Sum.inl v => M.pure v
      | Sum.inr resources =>
        M.bind (callOp (ClientCall.firewallsCreate p.name)
            (c.firewalls_create p.name (prepRules p.rules) p.labels resources)) (fun response =>
          M.pure (Value.dict [
            ("firewall", firewall_to_dict response.firewall),
            ("actions", optActions response.actions)]))))

/-- `update_firewall` (`server.py` line 915). -/
def update_firewall (c : Client) (p : UpdateFirewallParams) : Value × Trace :=
  runH "Failed to update firewall: " (
    M.bind (callOp (ClientCall.firewallsGetById p.firewall_id)
        (c.firewalls_get_by_id p.firewall_id)) (fun fw =>
      match fw with
      | none => M.pure (errDict (firewallNotFoundMsg p.firewall_id))
      | some firewall =>
        M.bind (callOp (ClientCall.firewallsUpdate firewall.id)
            (c.firewalls_update firewall p.name p.labels)) (fun updated =>
          M.pure (Value.dict [("firewall", firewall_to_dict updated)]))))

/-- `delete_firewall` (`server.py` line 940). -/
def delete_firewall (c : Client) (p : FirewallIdParam) : Value × Trace :=
  runH "Failed to delete firewall: " (
    M.bind (callOp (ClientCall.firewallsGetById p.firewall_id)
        (c.firewalls_get_by_id p.firewall_id)) (fun fw =>
      match fw with
      | none => M.pure (errDict (firewallNotFoundMsg p.firewall_id))
      | some firewall =>
        M.bind (callOp (ClientCall.firewallsDelete firewall.id)
            (c.firewalls_delete firewall)) (fun success =>
          M.pure (Value.dict [("success", Value.bool success)]))))

/-- `set_firewall_rules` (`server.py` line 962). -/
def set_firewall_rules (c : Client) (p : SetFirewallRulesParams) : Value × Trace :=
  runH "Failed to set firewall rules: " (
    M.bind (callOp (ClientCall.firewallsGetById p.firewall_id)
        (c.firewalls_get_by_id p.firewall_id)) (fun fw =>
      match fw with
      | none => M.pure (errDict (firewallNotFoundMsg p.firewall_id))
      | some firewall =>
        M.bind (callOp (ClientCall.firewallsSetRules firewall.id)
            (c.firewalls_set_rules firewall (p.rules.map ruleOfParam))) (fun actions =>
          M.pure (Value.dict [
            ("success", Value.bool true),
            ("actions", optActions (some actions))]))))

/-- `apply_firewall_to_resources` (`server.py` line 1018). -/
def apply_firewall_to_resources (c : Client) (p : FirewallResourcesParams) :
    Value × Trace :=
  runH "Failed to apply firewall to resources: " (
    M.bind (callOp (ClientCall.firewallsGetById p.firewall_id)
        (c.firewalls_get_by_id p.firewall_id)) (fun fw =>
      match fw with
      | none => M.pure (errDict (firewallNotFoundMsg p.firewall_id))
      | some firewall =>
        M.bind (buildResources c p.resources) (fun r =>
          match r with
          | Sum.inl v => M.pure v
          | Sum.inr resources =>
            M.bind (callOp (ClientCall.firewallsApplyToResources firewall.id)
                (c.firewalls_apply_to_resources firewall resources)) (fun actions =>
              M.pure (Value.dict [
                ("success", Value.bool true),
                ("actions", optActions (some actions))])))))

/-- `remove_firewall_from_resources` (`server.py` line 1092). -/
def remove_firewall_from_resources (c : Client) (p : FirewallResourcesParams) :
    Value × Trace :=
  runH "Failed to remove firewall from resources: " (
    M.bind (callOp (ClientCall.firewallsGetById p.firewall_id)
        (c.firewalls_get_by_id p.firewall_id)) (fun fw =>
      match fw with
      | none => M.pure (errDict (firewallNotFoundMsg p.firewall_id))
      | some firewall =>
        M.bind (buildResources c p.resources) (fun r =>
          match r with
          | Sum.inl v => M.pure v
          | Sum.inr resources =>
            M.bind (callOp (ClientCall.firewallsRemoveFromResources firewall.id)
                (c.firewalls_remove_from_resources firewall resources)) (fun actions =>
              M.pure (Value.dict [
                ("success", Value.bool true),
                ("actions", optActions (some actions))])))))

/-- `list_volumes` (`server.py` line 1169). -/
def list_volumes (c : Client) : Value × Trace :=
  runH "Failed to list volumes: " (
    M.bind (callOp ClientCall.volumesGetAll c.volumes_get_all) (fun volumes =>
      M.pure (Value.dict [("volumes", Value.list (volumes.map volume_to_dict))])))

/-- `get_volume` (`server.py` line 1186). -/
def get_volume (c : Client) (p : VolumeIdParam) : Value × Trace :=
  runH "Failed to get volume: " (
    M.bind (callOp (ClientCall.volumesGetById p.volume_id)
        (c.volumes_get_by_id p.volume_id)) (fun vol =>
      match vol with
      | none => M.pure (errDict (volumeNotFoundMsg p.volume_id))
      | some volume => M.pure (Value.dict [("volume", volume_to_dict volume)])))

/-- `create_volume` (`server.py` line 1206).  `if params.location:` and
`if params.server:` are Python truthiness checks, so an empty-string
location or a zero server id skip the lookup entirely. -/
def create_volume (c : Client) (p : CreateVolumeParams) : Value × Trace :=
  runH "Failed to create volume: " (
    M.bind (match p.location with
      | some lname =>
        if lname == "" then M.pure (Sum.inr none)
        else
          M.bind (callOp (ClientCall.locationsGetByName (some lname))
              (c.locations_get_by_name (some lname))) (fun lo =>
            M.pure (match lo with
              | none => Sum.inl (errDict ("Location " ++ sq ++ lname ++ sq ++ " not found"))
              | some loc => Sum.inr (some loc)))
      | none => M.pure (Sum.inr none)) (fun lr =>
    match lr with
    | Sum.inl v => M.pure v
    | Sum.inr location =>
      M.bind (match p.server with
        | some sid =>
          if sid == 0 then M.pure (Sum.inr none)
          else
            M.bind (callOp (ClientCall.serversGetById sid)
                (c.servers_get_by_id sid)) (fun so =>
              M.pure (match so with
                | none => Sum.inl (errDict (serverNotFoundMsg sid))
                | some s => Sum.inr (some s)))
        | none => M.pure (Sum.inr none)) (fun sr =>
      match sr with
      | Sum.inl v => M.pure v
      | Sum.inr server =>
        M.bind (callOp (ClientCall.volumesCreate p.name p.size)
            (c.volumes_create p.name p.size location server
              p.automount p.format p.labels)) (fun response =>
          M.pure (Value.dict [
            ("volume", volume_to_dict response.volume),
            ("action", optAction response.action),
            ("next_actions", optActions response.next_actions)])))))

/-- `delete_volume` (`server.py` line 1287). -/
def delete_volume (c : Client) (p : VolumeIdParam) : Value × Trace :=
  runH "Failed to delete volume: " (
    M.bind (callOp (ClientCall.volumesGetById p.volume_id)
        (c.volumes_get_by_id p.volume_id)) (fun vol =>
      match vol with
      | none => M.pure (errDict (volumeNotFoundMsg p.volume_id))
      | some volume =>
        M.bind (callOp (ClientCall.volumesDelete volume.id)
            (c.volumes_delete volume)) (fun success =>
          M.pure (Value.dict [("success", Value.bool success)]))))

/-- `attach_volume` (`server.py` line 1309). -/
def attach_volume (c : Client) (p : AttachVolumeParams) : Value × Trace :=
  runH "Failed to attach volume: " (
    M.bind (callOp (ClientCall.volumesGetById p.volume_id)
        (c.volumes_get_by_id p.volume_id)) (fun vol =>
      match vol with
      | none => M.pure (errDict (volumeNotFoundMsg p.volume_id))
      | some volume =>
        M.bind (callOp (ClientCall.serversGetById p.server_id)
            (c.servers_get_by_id p.server_id)) (fun srv =>
          match srv with
          | none => M.pure (errDict (serverNotFoundMsg p.server_id))
          | some server =>
            M.bind (callOp (ClientCall.volumesAttach volume.id server.id)
                (c.volumes_attach volume server p.automount)) (fun action =>
              M.pure (Value.dict [
                ("success", Value.bool true),
                ("action", action_to_dict action)])))))

/-- `detach_volume` (`server.py` line 1350). -/
def detach_volume (c : Client) (p : VolumeIdParam) : Value × Trace :=
  runH "Failed to detach volume: " (
    M.bind (callOp (ClientCall.volumesGetById p.volume_id)
        (c.volumes_get_by_id p.volume_id)) (fun vol =>
      match vol with
      | none => M.pure (errDict (volumeNotFoundMsg p.volume_id))
      | some volume =>
        match volume.server with
        | none => M.pure (errDict (volumeNotAttachedMsg p.volume_id))
        | some _ =>
          M.bind (callOp (ClientCall.volumesDetach volume.id)
              (c.volumes_detach volume)) (fun action =>
            M.pure (Value.dict [
              ("success", Value.bool true),
              ("action", action_to_dict action)]))))

/-- `"New size ({new} GB) must be greater than current size ({cur} GB)"`. -/
def resizeTooSmallMsg (newSize cur : Int) : String :=
  "New size (" ++ toString newSize ++ " GB) must be greater than current size (" ++
    toString cur ++ " GB)"

/-- `resize_volume` (`server.py` line 1391). -/
def resize_volume (c : Client) (p : ResizeVolumeParams) : Value × Trace :=
  runH "Failed to resize volume: " (
    M.bind (callOp (ClientCall.volumesGetById p.volume_id)
        (c.volumes_get_by_id p.volume_id)) (fun vol =>
      match vol with
      | none => M.pure (errDict (volumeNotFoundMsg p.volume_id))
      | some volume =>
        if p.size ≤ volume.size then
          M.pure (errDict (resizeTooSmallMsg p.size volume.size))
        else
          M.bind (callOp (ClientCall.volumesResize volume.id p.size)
              (c.volumes_resize volume p.size)) (fun action =>
            M.pure (Value.dict [
              ("success", Value.bool true),
              ("action", action_to_dict action)]))))

/-- `list_ssh_keys` (`server.py` line 1435). -/
def list_ssh_keys (c : Client) : Value × Trace :=
  runH "Failed to list SSH keys: " (
    M.bind (callOp ClientCall.sshKeysGetAll c.ssh_keys_get_all) (fun keys =>
      M.pure (Value.dict [("ssh_keys", Value.list (keys.map ssh_key_to_dict))])))

/-- `get_ssh_key` (`server.py` line 1452). -/
def get_ssh_key (c : Client) (p : SSHKeyIdParam) : Value × Trace :=
  runH "Failed to get SSH key: " (
    M.bind (callOp (ClientCall.sshKeysGetById p.ssh_key_id)
        (c.ssh_keys_get_by_id p.ssh_key_id)) (fun key =>
      match key with
      | none => M.pure (errDict (sshKeyNotFoundMsg p.ssh_key_id))
      | some ssh_key => M.pure (Value.dict [("ssh_key", ssh_key_to_dict ssh_key)])))

/-- `create_ssh_key` (`server.py` line 1472). -/
def create_ssh_key (c : Client) (p : CreateSSHKeyParams) : Value × Trace :=
  runH "Failed to create SSH key: " (
    M.bind (callOp (ClientCall.sshKeysCreate p.name)
        (c.ssh_keys_create p.name p.public_key p.labels)) (fun ssh_key =>
      M.pure (Value.dict [("ssh_key", ssh_key_to_dict ssh_key)])))

/-- `update_ssh_key` (`server.py` line 1493). -/
def update_ssh_key (c : Client) (p : UpdateSSHKeyParams) : Value × Trace :=
  runH "Failed to update SSH key: " (
    M.bind (callOp (ClientCall.sshKeysGetById p.ssh_key_id)
        (c.ssh_keys_get_by_id p.ssh_key_id)) (fun key =>
      match key with
      | none => M.pure (errDict (sshKeyNotFoundMsg p.ssh_key_id))
      | some ssh_key =>
        M.bind (callOp (ClientCall.sshKeysUpdate ssh_key.id)
            (c.ssh_keys_update ssh_key p.name p.labels)) (fun updated =>
          M.pure (Value.dict [("ssh_key", ssh_key_to_dict updated)]))))

/-- `delete_ssh_key` (`server.py` line 1518). -/
def delete_ssh_key (c : Client) (p : SSHKeyIdParam) : Value × Trace :=
  runH "Failed to delete SSH key: " (
    M.bind (callOp (ClientCall.sshKeysGetById p.ssh_key_id)
        (c.ssh_keys_get_by_id p.ssh_key_id)) (fun key =>
      match key with
      | none => M.pure (errDict (sshKeyNotFoundMsg p.ssh_key_id))
      | some ssh_key =>
        M.bind (callOp (ClientCall.sshKeysDelete ssh_key.id)
            (c.ssh_keys_delete ssh_key)) (fun success =>
          M.pure (Value.dict [("success", Value.bool success)]))))

/-! ## Credential resolver (`server.py` lines 36–86)

`authenticate` reads `~/.config/hcloud/cli.toml`.  The file system and the
TOML parse are modelled as a `CliConfigFile`: the file may be absent, be
present but fail to parse, or parse into an `HcloudConfig`.  Any raised
error aborts startup, since `client = Client(token=authenticate())` runs at
module import time. -/

/-- One entry of the `contexts` list of the TOML file. -/
structure HcloudContext where
  name : Option String
  token : Option String
deriving Repr, DecidableEq

/-- The parsed TOML configuration: `config.get("active_context")` and
`config.get("contexts", [])`. -/
structure HcloudConfig where
  active_context : Option String
  contexts : List HcloudContext
deriving Repr, DecidableEq

/-- The state of the configuration file at its fixed path. -/
inductive CliConfigFile where
  | absent : CliConfigFile
  | malformed : String → CliConfigFile
  | parsed : HcloudConfig → CliConfigFile
deriving Repr, DecidableEq

/-- The exception `authenticate` finally raises: the `FileNotFoundError`,
the `ValueError` raised from the `TomlDecodeError` clause, or the
`RuntimeError` wrapping any `ValueError` raised inside the `try`. -/
inductive AuthError where
  | fileNotFound : String → AuthError
  | valueError : String → AuthError
  | runtimeError : String → AuthError
deriving Repr, DecidableEq

/-- The `for context in contexts` loop (`server.py` lines 68–77): the first
context whose `name` equals the active context decides the result; no
match at all raises. -/
def findToken (active : String) : List HcloudContext → Except AuthError String
  | [] => Except.error (AuthError.runtimeError
      ("Error reading hcloud configuration: Active context " ++ sq ++ active ++ sq ++
        " not found in contexts"))
  | ctx :: rest =>
    if ctx.name == some active then
      match ctx.token with
      | some tok =>
        if tok == "" then
          Except.error (AuthError.runtimeError
            ("Error reading hcloud configuration: No token found for context " ++
              sq ++ active ++ sq))
        else Except.ok tok
      | none =>
        Except.error (AuthError.runtimeError
          ("Error reading hcloud configuration: No token found for context " ++
            sq ++ active ++ sq))
    else findToken active rest

/-- `authenticate` (`server.py` line 36).  The inner `ValueError`s are
re-raised by the blanket `except Exception` clause as a `RuntimeError`
with the `"Error reading hcloud configuration: "` prefix; the
`TomlDecodeError` clause raises its own `ValueError` directly. -/
def authenticate : CliConfigFile → Except AuthError String
  | CliConfigFile.absent =>
    Except.error (AuthError.fileNotFound
      ("hcloud CLI configuration not found. " ++
        "Please run login to hcloud to setup the hcloud CLI first."))
  | CliConfigFile.malformed detail =>
    Except.error (AuthError.valueError
      ("Invalid TOML format in hcloud configuration: " ++ detail))
  | CliConfigFile.parsed config =>
    match config.active_context with
    | none =>
      Except.error (AuthError.runtimeError
        "Error reading hcloud configuration: No active context found in hcloud configuration")
    | some active =>
      if active == "" then
        Except.error (AuthError.runtimeError
          "Error reading hcloud configuration: No active context found in hcloud configuration")
      else findToken active config.contexts

/-- The provider client constructed at startup with the resolved token. -/
structure ClientHandle where
  token : String
deriving Repr, DecidableEq

/-- `client = Client(token=authenticate())` (`server.py` line 86): the
client is constructed only after `authenticate` returned a token, so any
authentication error aborts startup before construction. -/
def startup (f : CliConfigFile) : Except AuthError ClientHandle :=
  match authenticate f with
  | Except.ok tok => Except.ok { token := tok }
  | Except.error e => Except.error e

/-- The first context in the list matching the active context name. -/
def firstMatch (active : String) : List HcloudContext → Option HcloudContext
  | [] => none
  | ctx :: rest => if ctx.name == some active then some ctx else firstMatch active rest

/-- The failure conditions the specification enumerates for credential
resolution: file absent, malformed syntax, active context name missing (or
empty, which Python truthiness treats as missing), active context record
absent from the contexts list, or the matched context's token empty or
missing. -/
def badCliConfig : CliConfigFile → Prop
  | CliConfigFile.absent => True
  | CliConfigFile.malformed _ => True
  | CliConfigFile.parsed config =>
    truthyStr config.active_context = false ∨
    (∃ active, config.active_context = some active ∧
      (firstMatch active config.contexts = none ∨
        ∃ ctx, firstMatch active config.contexts = some ctx ∧ truthyStr ctx.token = false))

/-! ## Result-shape predicates and monad lemmas -/

/-- Key lookup in a dictionary's field list (first occurrence wins, as in
a Python dict literal, whose keys here are distinct anyway). -/
def getKey (k : String) : List (String × Value) → Option Value
  | [] => none
  | (k2, v) :: rest => if k2 == k then some v else getKey k rest

/-- Field lookup in a dictionary value. -/
def getField (v : Value) (k : String) : Option Value :=
  match v with
  | Value.dict fields => getKey k fields
  | _ => none

/-- Does a field list carry the key? -/
def hasKeyL (k : String) (fields : List (String × Value)) : Bool :=
  (getKey k fields).isSome

/-- Does a dictionary value carry the key? -/
def hasField (v : Value) (k : String) : Bool :=
  (getField v k).isSome

/-- Exactly the error envelope `{"error": <string>}`. -/
def isErrEnvelope : Value → Bool
  | Value.dict [(k, Value.str _)] => k == "error"
  | _ => false

/-- The uniform handler contract: the returned value is a dictionary that
is either exactly the error envelope or carries no `"error"` key at all
(a success envelope). -/
def envelopeOk (v : Value) : Bool :=
  match v with
  | Value.dict fields => if hasKeyL "error" fields then isErrEnvelope v else true
  | _ => false

theorem envelopeOk_errDict (m : String) : envelopeOk (errDict m) = true := rfl

theorem isErrEnvelope_errDict (m : String) : isErrEnvelope (errDict m) = true := rfl

theorem envelopeOk_of_no_error (fields : List (String × Value))
    (h : hasKeyL "error" fields = false) : envelopeOk (Value.dict fields) = true := by
  simp [envelopeOk, h]

theorem res_bind_ok {α β : Type} {x : M α} {f : α → M β} {b : β}
    (h : (M.bind x f).res = Except.ok b) :
    ∃ a, x.res = Except.ok a ∧ (f a).res = Except.ok b := by
  unfold M.bind at h
  split at h
  · next a ha => exact ⟨a, ha, h⟩
  · next e he => simp at h

theorem res_pure_ok {α : Type} {a b : α} (h : (M.pure a).res = Except.ok b) : b = a := by
  unfold M.pure at h
  simp at h
  exact h.symm

theorem res_catch_ok {α : Type} {x : M α} {h : PyErr → M α} {a : α}
    (hc : (M.catch x h).res = Except.ok a) :
    x.res = Except.ok a ∨ ∃ e, x.res = Except.error e ∧ (h e).res = Except.ok a := by
  unfold M.catch at hc
  split at hc
  · next b hb => left; exact hc
  · next e he => right; exact ⟨e, he, hc⟩

theorem tr_bind {α β : Type} (x : M α) (f : α → M β) :
    (M.bind x f).tr = match x.res with
      | Except.ok a => x.tr ++ (f a).tr
      | Except.error _ => x.tr := by
  unfold M.bind
  split <;> simp_all

theorem tr_pure {α : Type} (a : α) : (M.pure a).tr = [] := rfl

theorem tr_callOp {α : Type} (cc : ClientCall) (r : Except PyErr α) :
    (callOp cc r).tr = [cc] := rfl

theorem tr_runH (pre : String) (x : M Value) : (runH pre x).2 = x.tr := by
  unfold runH
  split <;> rfl

theorem fst_runH_ok {pre : String} {x : M Value} {v : Value}
    (h : x.res = Except.ok v) : (runH pre x).1 = v := by
  unfold runH
  split
  · next w hw => rw [h] at hw; cases hw; rfl
  · next e he => rw [h] at he; cases he

theorem fst_runH_error {pre : String} {x : M Value} {e : PyErr}
    (h : x.res = Except.error e) : (runH pre x).1 = errDict (pre ++ e.msg) := by
  unfold runH
  split
  · next w hw => rw [h] at hw; cases hw
  · next e2 he => rw [h] at he; cases he; rfl

theorem envOk_runH (pre : String) (x : M Value)
    (h : ∀ v, x.res = Except.ok v → envelopeOk v = true) :
    envelopeOk (runH pre x).1 = true := by
  unfold runH
  split
  · next v hv => exact h v hv
  · next e he => exact envelopeOk_errDict _

/-! ## Action-polling calls never occur -/

/-- The SDK's Action-polling operations. -/
def isPollCall : ClientCall → Bool
  | ClientCall.actionsGetById _ => true
  | ClientCall.actionsWait _ => true
  | _ => false

/-- A trace that contains no Action-polling call. -/
def pollFree (tr : Trace) : Prop := ∀ e ∈ tr, isPollCall e = false

theorem pollFree_nil : pollFree [] := by
  intro e he
  cases he

theorem pollFree_append {a b : Trace} (ha : pollFree a) (hb : pollFree b) :
    pollFree (a ++ b) := by
  intro e he
  rcases List.mem_append.mp he with h | h
  · exact ha e h
  · exact hb e h

theorem pf_pure {α : Type} (a : α) : pollFree (M.pure a).tr := pollFree_nil

theorem pf_bind {α β : Type} {x : M α} {f : α → M β}
    (hx : pollFree x.tr) (hf : ∀ a, pollFree (f a).tr) :
    pollFree (M.bind x f).tr := by
  unfold M.bind
  split
  · next a _ => exact pollFree_append hx (hf a)
  · next e _ => exact hx

theorem pf_catch {α : Type} {x : M α} {h : PyErr → M α}
    (hx : pollFree x.tr) (hh : ∀ e, pollFree (h e).tr) :
    pollFree (M.catch x h).tr := by
  unfold M.catch
  split
  · next a _ => exact hx
  · next e _ => exact pollFree_append hx (hh e)

theorem pf_callOp {α : Type} (cc : ClientCall) (r : Except PyErr α)
    (h : isPollCall cc = false) : pollFree (callOp cc r).tr := by
  intro e he
  rcases List.mem_singleton.mp he with rfl
  exact h

theorem pf_runH {pre : String} {x : M Value} (h : pollFree x.tr) :
    pollFree (runH pre x).2 := by
  rw [tr_runH]
  exact h

theorem pf_list_servers (c : Client) : pollFree (list_servers c).2 := by
  unfold list_servers
  apply pf_runH
  refine pf_bind (pf_callOp _ _ ?_) ?_
  · rfl
  · intro a
    exact pf_pure _

theorem pf_get_server (c : Client) (p : ServerIdParam) : pollFree (get_server c p).2 := by
  unfold get_server
  apply pf_runH
  refine pf_bind (pf_callOp _ _ ?_) ?_
  · rfl
  · intro a
    cases a <;> exact pf_pure _

theorem pf_buildSshKeys (c : Client) (ks : List Int) : pollFree (buildSshKeys c ks).tr := by
  induction ks with
  | nil => exact pf_pure _
  | cons k rest ih =>
    unfold buildSshKeys
    refine pf_bind (pf_callOp _ _ ?_) ?_
    · rfl
    · intro ko
      exact pf_bind ih (fun _ => pf_pure _)

theorem pf_create_server_inner (c : Client) (p : CreateServerParams) :
    pollFree (create_server_inner c p).tr := by
  unfold create_server_inner
  refine pf_catch ?_ (fun e => pf_pure _)
  refine pf_bind (pf_callOp _ _ ?_) ?_
  · rfl
  intro server_types
  refine pf_bind (pf_callOp _ _ ?_) ?_
  · rfl
  intro images
  refine pf_bind (pf_callOp _ _ ?_) ?_
  · rfl
  intro locations
  refine pf_bind (pf_callOp _ _ ?_) ?_
  · rfl
  intro sto
  refine pf_bind (pf_callOp _ _ ?_) ?_
  · rfl
  intro io
  refine pf_bind (pf_callOp _ _ ?_) ?_
  · rfl
  intro lo
  cases sto with
  | none => exact pf_pure _
  | some st =>
    cases io with
    | none => exact pf_pure _
    | some img =>
      cases lo with
      | none => exact pf_pure _
      | some loc =>
        refine pf_bind ?_ ?_
        · cases p.ssh_keys with
          | none => exact pf_pure _
          | some ks => exact pf_buildSshKeys c ks
        · intro ssh_keys
          refine pf_bind (pf_callOp _ _ ?_) (fun _ => pf_pure _)
          rfl

theorem pf_create_server (c : Client) (p : CreateServerParams) :
    pollFree (create_server c p).2 := by
  unfold create_server
  apply pf_runH
  refine pf_bind (pf_create_server_inner c p) ?_
  intro r
  cases r <;> exact pf_pure _

theorem pf_delete_server (c : Client) (p : ServerIdParam) : pollFree (delete_server c p).2 := by
  unfold delete_server
  apply pf_runH
  refine pf_bind (pf_callOp _ _ ?_) ?_
  · rfl
  · intro a
    cases a with
    | none => exact pf_pure _
    | some server =>
      refine pf_bind (pf_callOp _ _ ?_) (fun _ => pf_pure _)
      rfl

theorem pf_list_images (c : Client) : pollFree (list_images c).2 := by
  unfold list_images
  apply pf_runH
  refine pf_bind (pf_callOp _ _ ?_) (fun _ => pf_pure _)
  rfl

theorem pf_list_server_types (c : Client) : pollFree (list_server_types c).2 := by
  unfold list_server_types
  apply pf_runH
  refine pf_bind (pf_callOp _ _ ?_) (fun _ => pf_pure _)
  rfl

theorem pf_list_locations (c : Client) : pollFree (list_locations c).2 := by
  unfold list_locations
  apply pf_runH
  refine pf_bind (pf_callOp _ _ ?_) (fun _ => pf_pure _)
  rfl

theorem pf_power_on (c : Client) (p : ServerIdParam) : pollFree (power_on c p).2 := by
  unfold power_on
  apply pf_runH
  refine pf_bind (pf_callOp _ _ ?_) ?_
  · rfl
  · intro a
    cases a with
    | none => exact pf_pure _
    | some server =>
      refine pf_bind (pf_callOp _ _ ?_) (fun _ => pf_pure _)
      rfl

theorem pf_power_off (c : Client) (p : ServerIdParam) : pollFree (power_off c p).2 := by
  unfold power_off
  apply pf_runH
  refine pf_bind (pf_callOp _ _ ?_) ?_
  · rfl
  · intro a
    cases a with
    | none => exact pf_pure _
    | some server =>
      refine pf_bind (pf_callOp _ _ ?_) (fun _ => pf_pure _)
      rfl

theorem pf_reboot (c : Client) (p : ServerIdParam) : pollFree (reboot c p).2 := by
  unfold reboot
  apply pf_runH
  refine pf_bind (pf_callOp _ _ ?_) ?_
  · rfl
  · intro a
    cases a with
    | none => exact pf_pure _
    | some server =>
      refine pf_bind (pf_callOp _ _ ?_) (fun _ => pf_pure _)
      rfl


theorem pf_buildResources (c : Client) (l : List FirewallResourceParam) :
    pollFree (buildResources c l).tr := by
  induction l with
  | nil => exact pf_pure _
  | cons rp rest ih =>
    unfold buildResources
    repeat'
      first
        | exact pf_pure _
        | exact ih
        | refine pf_bind (pf_callOp _ _ (by rfl)) ?_
        | refine pf_bind ?_ ?_
        | split
        | intro a

theorem pf_list_firewalls (c : Client) : pollFree (list_firewalls c).2 := by
  unfold list_firewalls
  apply pf_runH
  refine pf_bind (pf_callOp _ _ ?_) (fun _ => pf_pure _)
  rfl

theorem pf_get_firewall (c : Client) (p : FirewallIdParam) : pollFree (get_firewall c p).2 := by
  unfold get_firewall
  apply pf_runH
  refine pf_bind (pf_callOp _ _ ?_) ?_
  · rfl
  · intro a
    cases a <;> exact pf_pure _

theorem pf_create_firewall (c : Client) (p : CreateFirewallParams) :
    pollFree (create_firewall c p).2 := by
  unfold create_firewall
  apply pf_runH
  repeat'
    first
      | exact pf_pure _
      | exact pf_buildResources _ _
      | refine pf_bind (pf_callOp _ _ (by rfl)) ?_
      | refine pf_bind ?_ ?_
      | split
      | intro a

theorem pf_update_firewall (c : Client) (p : UpdateFirewallParams) :
    pollFree (update_firewall c p).2 := by
  unfold update_firewall
  apply pf_runH
  repeat'
    first
      | exact pf_pure _
      | refine pf_bind (pf_callOp _ _ (by rfl)) ?_
      | refine pf_bind ?_ ?_
      | split
      | intro a

theorem pf_delete_firewall (c : Client) (p : FirewallIdParam) :
    pollFree (delete_firewall c p).2 := by
  unfold delete_firewall
  apply pf_runH
  repeat'
    first
      | exact pf_pure _
      | refine pf_bind (pf_callOp _ _ (by rfl)) ?_
      | refine pf_bind ?_ ?_
      | split
      | intro a

theorem pf_set_firewall_rules (c : Client) (p : SetFirewallRulesParams) :
    pollFree (set_firewall_rules c p).2 := by
  unfold set_firewall_rules
  apply pf_runH
  repeat'
    first
      | exact pf_pure _
      | refine pf_bind (pf_callOp _ _ (by rfl)) ?_
      | refine pf_bind ?_ ?_
      | split
      | intro a

theorem pf_apply_firewall_to_resources (c : Client) (p : FirewallResourcesParams) :
    pollFree (apply_firewall_to_resources c p).2 := by
  unfold apply_firewall_to_resources
  apply pf_runH
  repeat'
    first
      | exact pf_pure _
      | exact pf_buildResources _ _
      | refine pf_bind (pf_callOp _ _ (by rfl)) ?_
      | refine pf_bind ?_ ?_
      | split
      | intro a

theorem pf_remove_firewall_from_resources (c : Client) (p : FirewallResourcesParams) :
    pollFree (remove_firewall_from_resources c p).2 := by
  unfold remove_firewall_from_resources
  apply pf_runH
  repeat'
    first
      | exact pf_pure _
      | exact pf_buildResources _ _
      | refine pf_bind (pf_callOp _ _ (by rfl)) ?_
      | refine pf_bind ?_ ?_
      | split
      | intro a

theorem pf_list_volumes (c : Client) : pollFree (list_volumes c).2 := by
  unfold list_volumes
  apply pf_runH
  refine pf_bind (pf_callOp _ _ ?_) (fun _ => pf_pure _)
  rfl

theorem pf_get_volume (c : Client) (p : VolumeIdParam) : pollFree (get_volume c p).2 := by
  unfold get_volume
  apply pf_runH
  refine pf_bind (pf_callOp _ _ ?_) ?_
  · rfl
  · intro a
    cases a <;> exact pf_pure _

theorem pf_create_volume (c : Client) (p : CreateVolumeParams) :
    pollFree (create_volume c p).2 := by
  unfold create_volume
  apply pf_runH
  repeat'
    first
      | exact pf_pure _
      | refine pf_bind (pf_callOp _ _ (by rfl)) ?_
      | refine pf_bind ?_ ?_
      | split
      | intro a

theorem pf_delete_volume (c : Client) (p : VolumeIdParam) : pollFree (delete_volume c p).2 := by
  unfold delete_volume
  apply pf_runH
  repeat'
    first
      | exact pf_pure _
      | refine pf_bind (pf_callOp _ _ (by rfl)) ?_
      | refine pf_bind ?_ ?_
      | split
      | intro a

theorem pf_attach_volume (c : Client) (p : AttachVolumeParams) :
    pollFree (attach_volume c p).2 := by
  unfold attach_volume
  apply pf_runH
  repeat'
    first
      | exact pf_pure _
      | refine pf_bind (pf_callOp _ _ (by rfl)) ?_
      | refine pf_bind ?_ ?_
      | split
      | intro a

theorem pf_detach_volume (c : Client) (p : VolumeIdParam) : pollFree (detach_volume c p).2 := by
  unfold detach_volume
  apply pf_runH
  repeat'
    first
      | exact pf_pure _
      | refine pf_bind (pf_callOp _ _ (by rfl)) ?_
      | refine pf_bind ?_ ?_
      | split
      | intro a

theorem pf_resize_volume (c : Client) (p : ResizeVolumeParams) :
    pollFree (resize_volume c p).2 := by
  unfold resize_volume
  apply pf_runH
  repeat'
    first
      | exact pf_pure _
      | refine pf_bind (pf_callOp _ _ (by rfl)) ?_
      | refine pf_bind ?_ ?_
      | split
      | intro a

theorem pf_list_ssh_keys (c : Client) : pollFree (list_ssh_keys c).2 := by
  unfold list_ssh_keys
  apply pf_runH
  refine pf_bind (pf_callOp _ _ ?_) (fun _ => pf_pure _)
  rfl

theorem pf_get_ssh_key (c : Client) (p : SSHKeyIdParam) : pollFree (get_ssh_key c p).2 := by
  unfold get_ssh_key
  apply pf_runH
  refine pf_bind (pf_callOp _ _ ?_) ?_
  · rfl
  · intro a
    cases a <;> exact pf_pure _

theorem pf_create_ssh_key (c : Client) (p : CreateSSHKeyParams) :
    pollFree (create_ssh_key c p).2 := by
  unfold create_ssh_key
  apply pf_runH
  refine pf_bind (pf_callOp _ _ ?_) (fun _ => pf_pure _)
  rfl

theorem pf_update_ssh_key (c : Client) (p : UpdateSSHKeyParams) :
    pollFree (update_ssh_key c p).2 := by
  unfold update_ssh_key
  apply pf_runH
  repeat'
    first
      | exact pf_pure _
      | refine pf_bind (pf_callOp _ _ (by rfl)) ?_
      | refine pf_bind ?_ ?_
      | split
      | intro a

theorem pf_delete_ssh_key (c : Client) (p : SSHKeyIdParam) :
    pollFree (delete_ssh_key c p).2 := by
  unfold delete_ssh_key
  apply pf_runH
  repeat'
    first
      | exact pf_pure _
      | refine pf_bind (pf_callOp _ _ (by rfl)) ?_
      | refine pf_bind ?_ ?_
      | split
      | intro a

/-! ## Envelope-shape lemmas: every handler returns a success envelope or
the error envelope -/

/-- Every normal (non-raising) outcome of the computation satisfies `P`. -/
def MOkP {α : Type} (P : α → Prop) (x : M α) : Prop :=
  ∀ a, x.res = Except.ok a → P a

theorem mokp_trivial {α : Type} (x : M α) : MOkP (fun _ => True) x :=
  fun _ _ => trivial

theorem mokp_pure {α : Type} {P : α → Prop} (a : α) (h : P a) : MOkP P (M.pure a) := by
  intro b hb
  have hba := res_pure_ok hb
  subst hba
  exact h

theorem mokp_bind2 {α β : Type} {P : α → Prop} {Q : β → Prop} {x : M α} {f : α → M β}
    (hx : MOkP P x) (hf : ∀ a, P a → MOkP Q (f a)) : MOkP Q (M.bind x f) := by
  intro b hb
  rcases res_bind_ok hb with ⟨a, ha, h2⟩
  exact hf a (hx a ha) b h2

theorem mokp_catch {α : Type} {Q : α → Prop} {x : M α} {h : PyErr → M α}
    (hx : MOkP Q x) (hh : ∀ e, MOkP Q (h e)) : MOkP Q (M.catch x h) := by
  intro a ha
  rcases res_catch_ok ha with h1 | ⟨e, he, h2⟩
  · exact hx a h1
  · exact hh e a h2

theorem envOk_of_isErr {v : Value} (h : isErrEnvelope v = true) : envelopeOk v = true := by
  unfold isErrEnvelope at h
  split at h
  · next k s => simp [envelopeOk, hasKeyL, getKey, isErrEnvelope, h]
  · exact absurd h (by simp)

theorem envOk_runH2 (pre : String) (x : M Value)
    (h : MOkP (fun v => envelopeOk v = true) x) :
    envelopeOk (runH pre x).1 = true := by
  unfold runH
  split
  · next v hv => exact h v hv
  · next e he => exact envelopeOk_errDict _

theorem env_list_servers (c : Client) : envelopeOk (list_servers c).1 = true := by
  unfold list_servers
  apply envOk_runH2
  repeat'
    first
      | exact mokp_pure _ (by rfl)
      | refine mokp_bind2 (mokp_trivial _) ?_
      | split
      | intro a

theorem env_get_server (c : Client) (p : ServerIdParam) :
    envelopeOk (get_server c p).1 = true := by
  unfold get_server
  apply envOk_runH2
  repeat'
    first
      | exact mokp_pure _ (by rfl)
      | refine mokp_bind2 (mokp_trivial _) ?_
      | split
      | intro a

theorem env_delete_server (c : Client) (p : ServerIdParam) :
    envelopeOk (delete_server c p).1 = true := by
  unfold delete_server
  apply envOk_runH2
  repeat'
    first
      | exact mokp_pure _ (by rfl)
      | refine mokp_bind2 (mokp_trivial _) ?_
      | split
      | intro a

theorem env_list_images (c : Client) : envelopeOk (list_images c).1 = true := by
  unfold list_images
  apply envOk_runH2
  repeat'
    first
      | exact mokp_pure _ (by rfl)
      | refine mokp_bind2 (mokp_trivial _) ?_
      | split
      | intro a

theorem env_list_server_types (c : Client) : envelopeOk (list_server_types c).1 = true := by
  unfold list_server_types
  apply envOk_runH2
  repeat'
    first
      | exact mokp_pure _ (by rfl)
      | refine mokp_bind2 (mokp_trivial _) ?_
      | split
      | intro a

theorem env_list_locations (c : Client) : envelopeOk (list_locations c).1 = true := by
  unfold list_locations
  apply envOk_runH2
  repeat'
    first
      | exact mokp_pure _ (by rfl)
      | refine mokp_bind2 (mokp_trivial _) ?_
      | split
      | intro a

theorem env_power_on (c : Client) (p : ServerIdParam) :
    envelopeOk (power_on c p).1 = true := by
  unfold power_on
  apply envOk_runH2
  repeat'
    first
      | exact mokp_pure _ (by rfl)
      | refine mokp_bind2 (mokp_trivial _) ?_
      | split
      | intro a

theorem env_power_off (c : Client) (p : ServerIdParam) :
    envelopeOk (power_off c p).1 = true := by
  unfold power_off
  apply envOk_runH2
  repeat'
    first
      | exact mokp_pure _ (by rfl)
      | refine mokp_bind2 (mokp_trivial _) ?_
      | split
      | intro a

theorem env_reboot (c : Client) (p : ServerIdParam) :
    envelopeOk (reboot c p).1 = true := by
  unfold reboot
  apply envOk_runH2
  repeat'
    first
      | exact mokp_pure _ (by rfl)
      | refine mokp_bind2 (mokp_trivial _) ?_
      | split
      | intro a

theorem env_list_firewalls (c : Client) : envelopeOk (list_firewalls c).1 = true := by
  unfold list_firewalls
  apply envOk_runH2
  repeat'
    first
      | exact mokp_pure _ (by rfl)
      | refine mokp_bind2 (mokp_trivial _) ?_
      | split
      | intro a

theorem env_get_firewall (c : Client) (p : FirewallIdParam) :
    envelopeOk (get_firewall c p).1 = true := by
  unfold get_firewall
  apply envOk_runH2
  repeat'
    first
      | exact mokp_pure _ (by rfl)
      | refine mokp_bind2 (mokp_trivial _) ?_
      | split
      | intro a

theorem env_update_firewall (c : Client) (p : UpdateFirewallParams) :
    envelopeOk (update_firewall c p).1 = true := by
  unfold update_firewall
  apply envOk_runH2
  repeat'
    first
      | exact mokp_pure _ (by rfl)
      | refine mokp_bind2 (mokp_trivial _) ?_
      | split
      | intro a

theorem env_delete_firewall (c : Client) (p : FirewallIdParam) :
    envelopeOk (delete_firewall c p).1 = true := by
  unfold delete_firewall
  apply envOk_runH2
  repeat'
    first
      | exact mokp_pure _ (by rfl)
      | refine mokp_bind2 (mokp_trivial _) ?_
      | split
      | intro a

theorem env_set_firewall_rules (c : Client) (p : SetFirewallRulesParams) :
    envelopeOk (set_firewall_rules c p).1 = true := by
  unfold set_firewall_rules
  apply envOk_runH2
  repeat'
    first
      | exact mokp_pure _ (by rfl)
      | refine mokp_bind2 (mokp_trivial _) ?_
      | split
      | intro a

theorem env_list_volumes (c : Client) : envelopeOk (list_volumes c).1 = true := by
  unfold list_volumes
  apply envOk_runH2
  repeat'
    first
      | exact mokp_pure _ (by rfl)
      | refine mokp_bind2 (mokp_trivial _) ?_
      | split
      | intro a

theorem env_get_volume (c : Client) (p : VolumeIdParam) :
    envelopeOk (get_volume c p).1 = true := by
  unfold get_volume
  apply envOk_runH2
  repeat'
    first
      | exact mokp_pure _ (by rfl)
      | refine mokp_bind2 (mokp_trivial _) ?_
      | split
      | intro a

theorem env_delete_volume (c : Client) (p : VolumeIdParam) :
    envelopeOk (delete_volume c p).1 = true := by
  unfold delete_volume
  apply envOk_runH2
  repeat'
    first
      | exact mokp_pure _ (by rfl)
      | refine mokp_bind2 (mokp_trivial _) ?_
      | split
      | intro a

theorem env_attach_volume (c : Client) (p : AttachVolumeParams) :
    envelopeOk (attach_volume c p).1 = true := by
  unfold attach_volume
  apply envOk_runH2
  repeat'
    first
      | exact mokp_pure _ (by rfl)
      | refine mokp_bind2 (mokp_trivial _) ?_
      | split
      | intro a

theorem env_detach_volume (c : Client) (p : VolumeIdParam) :
    envelopeOk (detach_volume c p).1 = true := by
  unfold detach_volume
  apply envOk_runH2
  repeat'
    first
      | exact mokp_pure _ (by rfl)
      | refine mokp_bind2 (mokp_trivial _) ?_
      | split
      | intro a

theorem env_resize_volume (c : Client) (p : ResizeVolumeParams) :
    envelopeOk (resize_volume c p).1 = true := by
  unfold resize_volume
  apply envOk_runH2
  repeat'
    first
      | exact mokp_pure _ (by rfl)
      | refine mokp_bind2 (mokp_trivial _) ?_
      | split
      | intro a

theorem env_list_ssh_keys (c : Client) : envelopeOk (list_ssh_keys c).1 = true := by
  unfold list_ssh_keys
  apply envOk_runH2
  repeat'
    first
      | exact mokp_pure _ (by rfl)
      | refine mokp_bind2 (mokp_trivial _) ?_
      | split
      | intro a

theorem env_get_ssh_key (c : Client) (p : SSHKeyIdParam) :
    envelopeOk (get_ssh_key c p).1 = true := by
  unfold get_ssh_key
  apply envOk_runH2
  repeat'
    first
      | exact mokp_pure _ (by rfl)
      | refine mokp_bind2 (mokp_trivial _) ?_
      | split
      | intro a

theorem env_create_ssh_key (c : Client) (p : CreateSSHKeyParams) :
    envelopeOk (create_ssh_key c p).1 = true := by
  unfold create_ssh_key
  apply envOk_runH2
  repeat'
    first
      | exact mokp_pure _ (by rfl)
      | refine mokp_bind2 (mokp_trivial _) ?_
      | split
      | intro a

theorem env_update_ssh_key (c : Client) (p : UpdateSSHKeyParams) :
    envelopeOk (update_ssh_key c p).1 = true := by
  unfold update_ssh_key
  apply envOk_runH2
  repeat'
    first
      | exact mokp_pure _ (by rfl)
      | refine mokp_bind2 (mokp_trivial _) ?_
      | split
      | intro a

theorem env_delete_ssh_key (c : Client) (p : SSHKeyIdParam) :
    envelopeOk (delete_ssh_key c p).1 = true := by
  unfold delete_ssh_key
  apply envOk_runH2
  repeat'
    first
      | exact mokp_pure _ (by rfl)
      | refine mokp_bind2 (mokp_trivial _) ?_
      | split
      | intro a

/-- An early-returned (`Sum.inl`) value is always the error envelope. -/
def InlIsErr {β : Type} (r : Sum Value β) : Prop :=
  ∀ v, r = Sum.inl v → isErrEnvelope v = true

theorem inlIsErr_inl {β : Type} (m : String) :
    InlIsErr (Sum.inl (errDict m) : Sum Value β) := by
  intro v h
  injection h with h2
  subst h2
  rfl

theorem inlIsErr_inr {β : Type} (b : β) : InlIsErr (Sum.inr b : Sum Value β) :=
  fun _ h => Sum.noConfusion h

theorem inlerr_buildResources (c : Client) (l : List FirewallResourceParam) :
    MOkP InlIsErr (buildResources c l) := by
  induction l with
  | nil => exact mokp_pure _ (inlIsErr_inr _)
  | cons rp rest ih =>
    unfold buildResources
    have hrest : ∀ mk : List FirewallResource → List FirewallResource,
        MOkP InlIsErr (M.bind (buildResources c rest) (fun r =>
          M.pure (match r with
            | Sum.inl v => Sum.inl v
            | Sum.inr rs => Sum.inr (mk rs)))) := by
      intro mk
      refine mokp_bind2 ih ?_
      intro r hr
      cases r with
      | inl w =>
        exact mokp_pure _ (fun v h => by
          injection h with h2
          subst h2
          exact hr w rfl)
      | inr rs => exact mokp_pure _ (inlIsErr_inr _)
    repeat'
      first
        | exact mokp_pure _ (inlIsErr_inl _)
        | exact hrest _
        | refine mokp_bind2 (mokp_trivial _) ?_
        | split
        | intro a

theorem inlerr_create_server_inner (c : Client) (p : CreateServerParams) :
    MOkP InlIsErr (create_server_inner c p) := by
  unfold create_server_inner
  refine mokp_catch ?_ ?_
  · repeat'
      first
        | exact mokp_pure _ (inlIsErr_inl _)
        | exact mokp_pure _ (inlIsErr_inr _)
        | refine mokp_bind2 (mokp_trivial _) ?_
        | split
        | intro a
  · intro e
    exact mokp_pure _ (inlIsErr_inl _)

theorem env_create_server (c : Client) (p : CreateServerParams) :
    envelopeOk (create_server c p).1 = true := by
  unfold create_server
  apply envOk_runH2
  refine mokp_bind2 (inlerr_create_server_inner c p) ?_
  intro r hr
  cases r with
  | inl v => exact mokp_pure _ (envOk_of_isErr (hr v rfl))
  | inr response => exact mokp_pure _ (by rfl)

theorem env_create_firewall (c : Client) (p : CreateFirewallParams) :
    envelopeOk (create_firewall c p).1 = true := by
  unfold create_firewall
  apply envOk_runH2
  have hbr : ∀ rps, MOkP InlIsErr (M.bind (buildResources c rps) (fun r =>
      M.pure (match r with
        | Sum.inl v => Sum.inl v
        | Sum.inr rs => Sum.inr (some rs)))) := by
    intro rps
    refine mokp_bind2 (inlerr_buildResources c rps) ?_
    intro r hr
    cases r with
    | inl w =>
      exact mokp_pure _ (fun v h => by
        injection h with h2
        subst h2
        exact hr w rfl)
    | inr rs => exact mokp_pure _ (inlIsErr_inr _)
  refine mokp_bind2 (P := InlIsErr) ?_ ?_
  · repeat'
      first
        | exact mokp_pure _ (inlIsErr_inr _)
        | exact hbr _
        | split
        | intro a
  · intro rr hrr
    cases rr with
    | inl v => exact mokp_pure _ (envOk_of_isErr (hrr v rfl))
    | inr resources =>
      refine mokp_bind2 (mokp_trivial _) ?_
      intro resp _
      exact mokp_pure _ (by rfl)

theorem env_apply_firewall_to_resources (c : Client) (p : FirewallResourcesParams) :
    envelopeOk (apply_firewall_to_resources c p).1 = true := by
  unfold apply_firewall_to_resources
  apply envOk_runH2
  refine mokp_bind2 (mokp_trivial _) ?_
  intro fwo _
  cases fwo with
  | none => exact mokp_pure _ (by rfl)
  | some fw =>
    refine mokp_bind2 (inlerr_buildResources c p.resources) ?_
    intro r hr
    cases r with
    | inl v => exact mokp_pure _ (envOk_of_isErr (hr v rfl))
    | inr resources =>
      refine mokp_bind2 (mokp_trivial _) ?_
      intro acts _
      exact mokp_pure _ (by rfl)

theorem env_remove_firewall_from_resources (c : Client) (p : FirewallResourcesParams) :
    envelopeOk (remove_firewall_from_resources c p).1 = true := by
  unfold remove_firewall_from_resources
  apply envOk_runH2
  refine mokp_bind2 (mokp_trivial _) ?_
  intro fwo _
  cases fwo with
  | none => exact mokp_pure _ (by rfl)
  | some fw =>
    refine mokp_bind2 (inlerr_buildResources c p.resources) ?_
    intro r hr
    cases r with
    | inl v => exact mokp_pure _ (envOk_of_isErr (hr v rfl))
    | inr resources =>
      refine mokp_bind2 (mokp_trivial _) ?_
      intro acts _
      exact mokp_pure _ (by rfl)

theorem env_create_volume (c : Client) (p : CreateVolumeParams) :
    envelopeOk (create_volume c p).1 = true := by
  unfold create_volume
  apply envOk_runH2
  refine mokp_bind2 (P := InlIsErr) ?_ ?_
  · repeat'
      first
        | exact mokp_pure _ (inlIsErr_inr _)
        | exact mokp_pure _ (inlIsErr_inl _)
        | refine mokp_bind2 (mokp_trivial _) ?_
        | split
        | intro a
  · intro lr hlr
    cases lr with
    | inl v => exact mokp_pure _ (envOk_of_isErr (hlr v rfl))
    | inr location =>
      refine mokp_bind2 (P := InlIsErr) ?_ ?_
      · repeat'
          first
            | exact mokp_pure _ (inlIsErr_inr _)
            | exact mokp_pure _ (inlIsErr_inl _)
            | refine mokp_bind2 (mokp_trivial _) ?_
            | split
            | intro a
      · intro sr hsr
        cases sr with
        | inl v => exact mokp_pure _ (envOk_of_isErr (hsr v rfl))
        | inr server =>
          refine mokp_bind2 (mokp_trivial _) ?_
          intro resp _
          exact mokp_pure _ (by rfl)

/-! ## Concrete test fixtures

A deterministic provider client used to instantiate the theorems at
concrete inputs (witnesses and counterexamples). -/

/-- A concrete mid-flight action descriptor. -/
def tAction : Action :=
  { id := 7, status := Value.str "running", command := Value.str "create_server",
    progress := Value.int 0, error := Value.null, started := none, finished := none }

/-- A concrete server with every optional sub-object absent. -/
def tServer : Server :=
  { id := 1, name := "s1", status := Value.str "running", created := none,
    server_type := none, image := none, datacenter := none, public_net := none,
    included_traffic := Value.null, outgoing_traffic := Value.null,
    ingoing_traffic := Value.null, backup_window := Value.null,
    rescue_enabled := Value.bool false, locked := Value.bool false,
    protection := none, labels := Value.null, volumes := none }

/-- A concrete volume of size 10 attached to server 1 (id 2). -/
def tVolumeAttached : Volume :=
  { id := 2, name := "v2", size := 10, location := none, server := some { id := 1 },
    linux_device := Value.null, protection := none, labels := Value.null,
    format := Value.null, created := none, status := Value.str "available" }

/-- A concrete volume with no attached server (id 5). -/
def tVolumeDetached : Volume :=
  { id := 5, name := "v5", size := 10, location := none, server := none,
    linux_device := Value.null, protection := none, labels := Value.null,
    format := Value.null, created := none, status := Value.str "available" }

/-- A concrete firewall (id 3). -/
def tFirewall : Firewall :=
  { id := 3, name := "fw3", rules := none, applied_to := none,
    labels := Value.null, created := none }

/-- A concrete SSH key (id 4). -/
def tSSHKey : SSHKey :=
  { id := 4, name := "k4", fingerprint := Value.null, public_key := Value.null,
    labels := Value.null, created := none }

/-- A concrete server type named cx11. -/
def tServerType : ServerType :=
  { id := Value.int 11, name := "cx11", description := Value.null,
    cores := Value.int 1, memory := Value.int 2, disk := Value.int 20,
    storage_type := Value.null, cpu_type := Value.null, prices := none }

/-- A concrete image. -/
def tImage : Image :=
  { id := Value.int 21, name := some "ubuntu-22.04", description := Value.null,
    type := Value.null, status := Value.null, os_flavor := Value.null,
    os_version := Value.null, architecture := Value.null,
    disk_size := Value.null, created := none }

/-- A concrete location named nbg1. -/
def tLocation : Location :=
  { id := Value.int 31, name := "nbg1", description := Value.null,
    country := Value.null, city := Value.null, latitude := Value.null,
    longitude := Value.null, network_zone := Value.null }

/-- The create-server response of the test client: action mid-flight and a
root password present. -/
def tCreateResp : CreateServerResponse :=
  { server := tServer, action := some tAction, root_password := some "pw123" }

/-- A deterministic, never-raising provider client: server 1, volume 2
(attached) and 5 (detached), firewall 3, SSH key 4 exist; every other ID
resolves to nothing. -/
def testClient : Client :=
  { servers_get_all := Except.ok [tServer]
    servers_get_by_id := fun i => if i == 1 then Except.ok (some tServer) else Except.ok none
    servers_create := fun _ _ _ _ _ => Except.ok tCreateResp
    servers_delete := fun _ => Except.ok tAction
    servers_power_on := fun _ => Except.ok tAction
    servers_power_off := fun _ => Except.ok tAction
    servers_reboot := fun _ => Except.ok tAction
    images_get_all := Except.ok [tImage]
    images_get_by_name := fun n =>
      if n == "ubuntu-22.04" then Except.ok (some tImage) else Except.ok none
    server_types_get_all := Except.ok [tServerType]
    server_types_get_by_name := fun n =>
      if n == "cx11" then Except.ok (some tServerType) else Except.ok none
    locations_get_all := Except.ok [tLocation]
    locations_get_by_name := fun o =>
      if o == some "nbg1" then Except.ok (some tLocation) else Except.ok none
    firewalls_get_all := Except.ok [tFirewall]
    firewalls_get_by_id := fun i => if i == 3 then Except.ok (some tFirewall) else Except.ok none
    firewalls_create := fun _ _ _ _ => Except.ok { firewall := tFirewall, actions := some [tAction] }
    firewalls_update := fun fw _ _ => Except.ok fw
    firewalls_delete := fun _ => Except.ok true
    firewalls_set_rules := fun _ _ => Except.ok [tAction]
    firewalls_apply_to_resources := fun _ _ => Except.ok [tAction]
    firewalls_remove_from_resources := fun _ _ => Except.ok [tAction]
    volumes_get_all := Except.ok [tVolumeAttached, tVolumeDetached]
    volumes_get_by_id := fun i =>
      if i == 2 then Except.ok (some tVolumeAttached)
      else if i == 5 then Except.ok (some tVolumeDetached)
      else Except.ok none
    volumes_create := fun _ _ _ _ _ _ _ =>
      Except.ok { volume := tVolumeAttached, action := some tAction, next_actions := none }
    volumes_delete := fun _ => Except.ok true
    volumes_attach := fun _ _ _ => Except.ok tAction
    volumes_detach := fun _ => Except.ok tAction
    volumes_resize := fun _ _ => Except.ok tAction
    ssh_keys_get_all := Except.ok [tSSHKey]
    ssh_keys_get_by_id := fun i => if i == 4 then Except.ok (some tSSHKey) else Except.ok none
    ssh_keys_get_by_name := fun _ => Except.ok none
    ssh_keys_create := fun _ _ _ => Except.ok tSSHKey
    ssh_keys_update := fun k _ _ => Except.ok k
    ssh_keys_delete := fun _ => Except.ok true
    actions_get_by_id := fun _ => Except.ok (some tAction)
    actions_wait := fun a => Except.ok a }

/-! ## Claim theorems -/

/-- C1: For every tool handler and every input — over an arbitrary
provider client, so in particular one whose every operation raises — the
handler returns a plain dictionary that is either a success envelope
(no "error" key) or exactly the error envelope `{"error": <message>}`.
No exception propagates: each handler is a total function whose raising
sub-computations are absorbed by its `try/except` boundary (`runH`). -/
theorem c1_handlers_never_propagate_exceptions :
    ∀ c : Client,
      envelopeOk (list_servers c).1 = true ∧
      envelopeOk (list_images c).1 = true ∧
      envelopeOk (list_server_types c).1 = true ∧
      envelopeOk (list_locations c).1 = true ∧
      envelopeOk (list_firewalls c).1 = true ∧
      envelopeOk (list_volumes c).1 = true ∧
      envelopeOk (list_ssh_keys c).1 = true ∧
      (∀ p, envelopeOk (get_server c p).1 = true) ∧
      (∀ p, envelopeOk (create_server c p).1 = true) ∧
      (∀ p, envelopeOk (delete_server c p).1 = true) ∧
      (∀ p, envelopeOk (power_on c p).1 = true) ∧
      (∀ p, envelopeOk (power_off c p).1 = true) ∧
      (∀ p, envelopeOk (reboot c p).1 = true) ∧
      (∀ p, envelopeOk (get_firewall c p).1 = true) ∧
      (∀ p, envelopeOk (create_firewall c p).1 = true) ∧
      (∀ p, envelopeOk (update_firewall c p).1 = true) ∧
      (∀ p, envelopeOk (delete_firewall c p).1 = true) ∧
      (∀ p, envelopeOk (set_firewall_rules c p).1 = true) ∧
      (∀ p, envelopeOk (apply_firewall_to_resources c p).1 = true) ∧
      (∀ p, envelopeOk (remove_firewall_from_resources c p).1 = true) ∧
      (∀ p, envelopeOk (get_volume c p).1 = true) ∧
      (∀ p, envelopeOk (create_volume c p).1 = true) ∧
      (∀ p, envelopeOk (delete_volume c p).1 = true) ∧
      (∀ p, envelopeOk (attach_volume c p).1 = true) ∧
      (∀ p, envelopeOk (detach_volume c p).1 = true) ∧
      (∀ p, envelopeOk (resize_volume c p).1 = true) ∧
      (∀ p, envelopeOk (get_ssh_key c p).1 = true) ∧
      (∀ p, envelopeOk (create_ssh_key c p).1 = true) ∧
      (∀ p, envelopeOk (update_ssh_key c p).1 = true) ∧
      (∀ p, envelopeOk (delete_ssh_key c p).1 = true) := by
  intro c
  exact ⟨env_list_servers c, env_list_images c, env_list_server_types c,
    env_list_locations c, env_list_firewalls c, env_list_volumes c, env_list_ssh_keys c,
    fun p => env_get_server c p, fun p => env_create_server c p,
    fun p => env_delete_server c p, fun p => env_power_on c p,
    fun p => env_power_off c p, fun p => env_reboot c p,
    fun p => env_get_firewall c p, fun p => env_create_firewall c p,
    fun p => env_update_firewall c p, fun p => env_delete_firewall c p,
    fun p => env_set_firewall_rules c p, fun p => env_apply_firewall_to_resources c p,
    fun p => env_remove_firewall_from_resources c p, fun p => env_get_volume c p,
    fun p => env_create_volume c p, fun p => env_delete_volume c p,
    fun p => env_attach_volume c p, fun p => env_detach_volume c p,
    fun p => env_resize_volume c p, fun p => env_get_ssh_key c p,
    fun p => env_create_ssh_key c p, fun p => env_update_ssh_key c p,
    fun p => env_delete_ssh_key c p⟩

/-- The `create_server` request of the C2 counterexample: every name
resolves, but SSH key ID 99 does not exist. -/
def c2Params : CreateServerParams :=
  { name := "web", server_type := "cx11", image := "ubuntu-22.04",
    location := some "nbg1", ssh_keys := some [99] }

/-- C2 counterexample: SSH key ID 99 does not resolve
(`ssh_keys_get_by_id 99 = ok none`), yet `create_server` silently skips it
(`server.py` lines 470–473 append only when the lookup returns an object)
and returns a success envelope, not an error envelope containing 99. -/
theorem c2_counterexample :
    testClient.ssh_keys_get_by_id 99 = Except.ok none ∧
    (create_server testClient c2Params).1 = Value.dict [
      ("server", server_to_dict tServer),
      ("action", optAction (some tAction)),
      ("root_password", optStr (some "pw123"))] ∧
    isErrEnvelope (create_server testClient c2Params).1 = false := by
  refine ⟨rfl, ?_, ?_⟩ <;> rfl

/-- C2 (amended): for every handler that references a provider resource
through a top-level required ID parameter (server_id, volume_id,
firewall_id, ssh_key_id — including attach_volume's two IDs and
create_volume's optional server ID), an ID that does not resolve yields
exactly the not-found error envelope carrying that ID, and never a success
envelope.  `create_server`'s ssh_keys list is exempt: an unresolvable SSH
key ID is silently skipped (see the counterexample). -/
theorem c2_unresolved_id_yields_error :
    (∀ (c : Client) (p : ServerIdParam),
      c.servers_get_by_id p.server_id = Except.ok none →
      (get_server c p).1 = errDict (serverNotFoundMsg p.server_id)) ∧
    (∀ (c : Client) (p : ServerIdParam),
      c.servers_get_by_id p.server_id = Except.ok none →
      (delete_server c p).1 = errDict (serverNotFoundMsg p.server_id)) ∧
    (∀ (c : Client) (p : ServerIdParam),
      c.servers_get_by_id p.server_id = Except.ok none →
      (power_on c p).1 = errDict (serverNotFoundMsg p.server_id)) ∧
    (∀ (c : Client) (p : ServerIdParam),
      c.servers_get_by_id p.server_id = Except.ok none →
      (power_off c p).1 = errDict (serverNotFoundMsg p.server_id)) ∧
    (∀ (c : Client) (p : ServerIdParam),
      c.servers_get_by_id p.server_id = Except.ok none →
      (reboot c p).1 = errDict (serverNotFoundMsg p.server_id)) ∧
    (∀ (c : Client) (p : FirewallIdParam),
      c.firewalls_get_by_id p.firewall_id = Except.ok none →
      (get_firewall c p).1 = errDict (firewallNotFoundMsg p.firewall_id)) ∧
    (∀ (c : Client) (p : UpdateFirewallParams),
      c.firewalls_get_by_id p.firewall_id = Except.ok none →
      (update_firewall c p).1 = errDict (firewallNotFoundMsg p.firewall_id)) ∧
    (∀ (c : Client) (p : FirewallIdParam),
      c.firewalls_get_by_id p.firewall_id = Except.ok none →
      (delete_firewall c p).1 = errDict (firewallNotFoundMsg p.firewall_id)) ∧
    (∀ (c : Client) (p : SetFirewallRulesParams),
      c.firewalls_get_by_id p.firewall_id = Except.ok none →
      (set_firewall_rules c p).1 = errDict (firewallNotFoundMsg p.firewall_id)) ∧
    (∀ (c : Client) (p : FirewallResourcesParams),
      c.firewalls_get_by_id p.firewall_id = Except.ok none →
      (apply_firewall_to_resources c p).1 = errDict (firewallNotFoundMsg p.firewall_id)) ∧
    (∀ (c : Client) (p : FirewallResourcesParams),
      c.firewalls_get_by_id p.firewall_id = Except.ok none →
      (remove_firewall_from_resources c p).1 = errDict (firewallNotFoundMsg p.firewall_id)) ∧
    (∀ (c : Client) (p : VolumeIdParam),
      c.volumes_get_by_id p.volume_id = Except.ok none →
      (get_volume c p).1 = errDict (volumeNotFoundMsg p.volume_id)) ∧
    (∀ (c : Client) (p : VolumeIdParam),
      c.volumes_get_by_id p.volume_id = Except.ok none →
      (delete_volume c p).1 = errDict (volumeNotFoundMsg p.volume_id)) ∧
    (∀ (c : Client) (p : VolumeIdParam),
      c.volumes_get_by_id p.volume_id = Except.ok none →
      (detach_volume c p).1 = errDict (volumeNotFoundMsg p.volume_id)) ∧
    (∀ (c : Client) (p : ResizeVolumeParams),
      c.volumes_get_by_id p.volume_id = Except.ok none →
      (resize_volume c p).1 = errDict (volumeNotFoundMsg p.volume_id)) ∧
    (∀ (c : Client) (p : AttachVolumeParams),
      c.volumes_get_by_id p.volume_id = Except.ok none →
      (attach_volume c p).1 = errDict (volumeNotFoundMsg p.volume_id)) ∧
    (∀ (c : Client) (p : AttachVolumeParams) (vol : Volume),
      c.volumes_get_by_id p.volume_id = Except.ok (some vol) →
      c.servers_get_by_id p.server_id = Except.ok none →
      (attach_volume c p).1 = errDict (serverNotFoundMsg p.server_id)) ∧
    (∀ (c : Client) (p : SSHKeyIdParam),
      c.ssh_keys_get_by_id p.ssh_key_id = Except.ok none →
      (get_ssh_key c p).1 = errDict (sshKeyNotFoundMsg p.ssh_key_id)) ∧
    (∀ (c : Client) (p : UpdateSSHKeyParams),
      c.ssh_keys_get_by_id p.ssh_key_id = Except.ok none →
      (update_ssh_key c p).1 = errDict (sshKeyNotFoundMsg p.ssh_key_id)) ∧
    (∀ (c : Client) (p : SSHKeyIdParam),
      c.ssh_keys_get_by_id p.ssh_key_id = Except.ok none →
      (delete_ssh_key c p).1 = errDict (sshKeyNotFoundMsg p.ssh_key_id)) ∧
    (∀ (c : Client) (p : CreateVolumeParams) (sid : Int),
      p.location = none → p.server = some sid → (sid == 0) = false →
      c.servers_get_by_id sid = Except.ok none →
      (create_volume c p).1 = errDict (serverNotFoundMsg sid)) := by
  refine ⟨?_, ?_, ?_, ?_, ?_, ?_, ?_, ?_, ?_, ?_, ?_, ?_, ?_, ?_, ?_, ?_, ?_, ?_, ?_, ?_, ?_⟩
  · intro c p h
    simp [get_server, runH, M.bind, M.pure, callOp, h]
  · intro c p h
    simp [delete_server, runH, M.bind, M.pure, callOp, h]
  · intro c p h
    simp [power_on, runH, M.bind, M.pure, callOp, h]
  · intro c p h
    simp [power_off, runH, M.bind, M.pure, callOp, h]
  · intro c p h
    simp [reboot, runH, M.bind, M.pure, callOp, h]
  · intro c p h
    simp [get_firewall, runH, M.bind, M.pure, callOp, h]
  · intro c p h
    simp [update_firewall, runH, M.bind, M.pure, callOp, h]
  · intro c p h
    simp [delete_firewall, runH, M.bind, M.pure, callOp, h]
  · intro c p h
    simp [set_firewall_rules, runH, M.bind, M.pure, callOp, h]
  · intro c p h
    simp [apply_firewall_to_resources, runH, M.bind, M.pure, callOp, h]
  · intro c p h
    simp [remove_firewall_from_resources, runH, M.bind, M.pure, callOp, h]
  · intro c p h
    simp [get_volume, runH, M.bind, M.pure, callOp, h]
  · intro c p h
    simp [delete_volume, runH, M.bind, M.pure, callOp, h]
  · intro c p h
    simp [detach_volume, runH, M.bind, M.pure, callOp, h]
  · intro c p h
    simp [resize_volume, runH, M.bind, M.pure, callOp, h]
  · intro c p h
    simp [attach_volume, runH, M.bind, M.pure, callOp, h]
  · intro c p vol hv hs
    simp [attach_volume, runH, M.bind, M.pure, callOp, hv, hs]
  · intro c p h
    simp [get_ssh_key, runH, M.bind, M.pure, callOp, h]
  · intro c p h
    simp [update_ssh_key, runH, M.bind, M.pure, callOp, h]
  · intro c p h
    simp [delete_ssh_key, runH, M.bind, M.pure, callOp, h]
  · intro c p sid hl hp hz hs
    simp [create_volume, runH, M.bind, M.pure, callOp, hl, hp, hz, hs]

/-- Witness for C2 (amended): the theorem applied at the concrete test
client and IDs that do not resolve there. -/
theorem c2_witness :
    (get_server testClient { server_id := 77 }).1 = errDict (serverNotFoundMsg 77) ∧
    (get_firewall testClient { firewall_id := 77 }).1 = errDict (firewallNotFoundMsg 77) ∧
    (get_volume testClient { volume_id := 77 }).1 = errDict (volumeNotFoundMsg 77) ∧
    (get_ssh_key testClient { ssh_key_id := 77 }).1 = errDict (sshKeyNotFoundMsg 77) ∧
    (attach_volume testClient { volume_id := 2, server_id := 77 }).1 =
      errDict (serverNotFoundMsg 77) ∧
    (create_volume testClient { name := "v", size := 10, server := some 77 }).1 =
      errDict (serverNotFoundMsg 77) := by
  have h := c2_unresolved_id_yields_error
  exact ⟨h.1 testClient { server_id := 77 } rfl,
    h.2.2.2.2.2.1 testClient { firewall_id := 77 } rfl,
    h.2.2.2.2.2.2.2.2.2.2.2.1 testClient { volume_id := 77 } rfl,
    h.2.2.2.2.2.2.2.2.2.2.2.2.2.2.2.2.2.1 testClient { ssh_key_id := 77 } rfl,
    h.2.2.2.2.2.2.2.2.2.2.2.2.2.2.2.2.1 testClient { volume_id := 2, server_id := 77 }
      tVolumeAttached rfl rfl,
    h.2.2.2.2.2.2.2.2.2.2.2.2.2.2.2.2.2.2.2.2 testClient
      { name := "v", size := 10, server := some 77 } 77 rfl rfl rfl rfl⟩

/-- C3: No handler waits for or polls a provider Action.  Part one: over an
arbitrary client, no handler's provider-call trace ever contains an
Action-polling call (`actions_get_by_id` / `actions_wait`).  Part two: every
handler that obtains an Action (or Action list) from its provider call
returns the converted descriptor exactly as received — `action_to_dict` of
the very Action the client produced — issuing no further provider call
about it, as the recorded traces show. -/
theorem c3_actions_returned_mid_flight :
    (∀ c : Client,
      pollFree (list_servers c).2 ∧ pollFree (list_images c).2 ∧
      pollFree (list_server_types c).2 ∧ pollFree (list_locations c).2 ∧
      pollFree (list_firewalls c).2 ∧ pollFree (list_volumes c).2 ∧
      pollFree (list_ssh_keys c).2 ∧
      (∀ p, pollFree (get_server c p).2) ∧ (∀ p, pollFree (create_server c p).2) ∧
      (∀ p, pollFree (delete_server c p).2) ∧ (∀ p, pollFree (power_on c p).2) ∧
      (∀ p, pollFree (power_off c p).2) ∧ (∀ p, pollFree (reboot c p).2) ∧
      (∀ p, pollFree (get_firewall c p).2) ∧ (∀ p, pollFree (create_firewall c p).2) ∧
      (∀ p, pollFree (update_firewall c p).2) ∧ (∀ p, pollFree (delete_firewall c p).2) ∧
      (∀ p, pollFree (set_firewall_rules c p).2) ∧
      (∀ p, pollFree (apply_firewall_to_resources c p).2) ∧
      (∀ p, pollFree (remove_firewall_from_resources c p).2) ∧
      (∀ p, pollFree (get_volume c p).2) ∧ (∀ p, pollFree (create_volume c p).2) ∧
      (∀ p, pollFree (delete_volume c p).2) ∧ (∀ p, pollFree (attach_volume c p).2) ∧
      (∀ p, pollFree (detach_volume c p).2) ∧ (∀ p, pollFree (resize_volume c p).2) ∧
      (∀ p, pollFree (get_ssh_key c p).2) ∧ (∀ p, pollFree (create_ssh_key c p).2) ∧
      (∀ p, pollFree (update_ssh_key c p).2) ∧ (∀ p, pollFree (delete_ssh_key c p).2)) ∧
    (∀ (c : Client) (p : CreateServerParams) (sts : List ServerType) (imgs : List Image)
        (locs : List Location) (st : ServerType) (img : Image) (loc : Location)
        (ks : List SSHKey) (resp : CreateServerResponse),
      c.server_types_get_all = Except.ok sts →
      c.images_get_all = Except.ok imgs →
      c.locations_get_all = Except.ok locs →
      c.server_types_get_by_name p.server_type = Except.ok (some st) →
      c.images_get_by_name p.image = Except.ok (some img) →
      c.locations_get_by_name p.location = Except.ok (some loc) →
      (match p.ssh_keys with
        | some l => buildSshKeys c l
        | none => M.pure []).res = Except.ok ks →
      c.servers_create p.name st img loc ks = Except.ok resp →
      create_server c p = (Value.dict [
          ("server", server_to_dict resp.server),
          ("action", optAction resp.action),
          ("root_password", optStr resp.root_password)],
        [ClientCall.serverTypesGetAll, ClientCall.imagesGetAll, ClientCall.locationsGetAll,
          ClientCall.serverTypesGetByName p.server_type, ClientCall.imagesGetByName p.image,
          ClientCall.locationsGetByName p.location] ++
          (match p.ssh_keys with
            | some l => buildSshKeys c l
            | none => M.pure []).tr ++
          [ClientCall.serversCreate p.name p.server_type])) ∧
    (∀ (c : Client) (p : ServerIdParam) (srv : Server) (act : Action),
      c.servers_get_by_id p.server_id = Except.ok (some srv) →
      c.servers_delete srv = Except.ok act →
      delete_server c p = (Value.dict [
          ("success", Value.bool true), ("action", action_to_dict act)],
        [ClientCall.serversGetById p.server_id, ClientCall.serversDelete srv.id])) ∧
    (∀ (c : Client) (p : ServerIdParam) (srv : Server) (act : Action),
      c.servers_get_by_id p.server_id = Except.ok (some srv) →
      c.servers_power_on srv = Except.ok act →
      power_on c p = (Value.dict [
          ("success", Value.bool true), ("action", action_to_dict act)],
        [ClientCall.serversGetById p.server_id, ClientCall.serversPowerOn srv.id])) ∧
    (∀ (c : Client) (p : ServerIdParam) (srv : Server) (act : Action),
      c.servers_get_by_id p.server_id = Except.ok (some srv) →
      c.servers_power_off srv = Except.ok act →
      power_off c p = (Value.dict [
          ("success", Value.bool true), ("action", action_to_dict act)],
        [ClientCall.serversGetById p.server_id, ClientCall.serversPowerOff srv.id])) ∧
    (∀ (c : Client) (p : ServerIdParam) (srv : Server) (act : Action),
      c.servers_get_by_id p.server_id = Except.ok (some srv) →
      c.servers_reboot srv = Except.ok act →
      reboot c p = (Value.dict [
          ("success", Value.bool true), ("action", action_to_dict act)],
        [ClientCall.serversGetById p.server_id, ClientCall.serversReboot srv.id])) ∧
    (∀ (c : Client) (p : CreateFirewallParams) (resp : CreateFirewallResponse),
      p.resources = none →
      c.firewalls_create p.name (prepRules p.rules) p.labels none = Except.ok resp →
      create_firewall c p = (Value.dict [
          ("firewall", firewall_to_dict resp.firewall),
          ("actions", optActions resp.actions)],
        [ClientCall.firewallsCreate p.name])) ∧
    (∀ (c : Client) (p : SetFirewallRulesParams) (fw : Firewall) (acts : List Action),
      c.firewalls_get_by_id p.firewall_id = Except.ok (some fw) →
      c.firewalls_set_rules fw (p.rules.map ruleOfParam) = Except.ok acts →
      set_firewall_rules c p = (Value.dict [
          ("success", Value.bool true), ("actions", optActions (some acts))],
        [ClientCall.firewallsGetById p.firewall_id, ClientCall.firewallsSetRules fw.id])) ∧
    (∀ (c : Client) (p : FirewallResourcesParams) (fw : Firewall)
        (resources : List FirewallResource) (acts : List Action),
      c.firewalls_get_by_id p.firewall_id = Except.ok (some fw) →
      (buildResources c p.resources).res = Except.ok (Sum.inr resources) →
      c.firewalls_apply_to_resources fw resources = Except.ok acts →
      apply_firewall_to_resources c p = (Value.dict [
          ("success", Value.bool true), ("actions", optActions (some acts))],
        ClientCall.firewallsGetById p.firewall_id ::
          ((buildResources c p.resources).tr ++
            [ClientCall.firewallsApplyToResources fw.id]))) ∧
    (∀ (c : Client) (p : FirewallResourcesParams) (fw : Firewall)
        (resources : List FirewallResource) (acts : List Action),
      c.firewalls_get_by_id p.firewall_id = Except.ok (some fw) →
      (buildResources c p.resources).res = Except.ok (Sum.inr resources) →
      c.firewalls_remove_from_resources fw resources = Except.ok acts →
      remove_firewall_from_resources c p = (Value.dict [
          ("success", Value.bool true), ("actions", optActions (some acts))],
        ClientCall.firewallsGetById p.firewall_id ::
          ((buildResources c p.resources).tr ++
            [ClientCall.firewallsRemoveFromResources fw.id]))) ∧
    (∀ (c : Client) (p : CreateVolumeParams) (resp : CreateVolumeResponse),
      p.location = none → p.server = none →
      c.volumes_create p.name p.size none none p.automount p.format p.labels =
        Except.ok resp →
      create_volume c p = (Value.dict [
          ("volume", volume_to_dict resp.volume),
          ("action", optAction resp.action),
          ("next_actions", optActions resp.next_actions)],
        [ClientCall.volumesCreate p.name p.size])) ∧
    (∀ (c : Client) (p : AttachVolumeParams) (vol : Volume) (srv : Server) (act : Action),
      c.volumes_get_by_id p.volume_id = Except.ok (some vol) →
      c.servers_get_by_id p.server_id = Except.ok (some srv) →
      c.volumes_attach vol srv p.automount = Except.ok act →
      attach_volume c p = (Value.dict [
          ("success", Value.bool true), ("action", action_to_dict act)],
        [ClientCall.volumesGetById p.volume_id, ClientCall.serversGetById p.server_id,
          ClientCall.volumesAttach vol.id srv.id])) ∧
    (∀ (c : Client) (p : VolumeIdParam) (vol : Volume) (sref : ServerRef) (act : Action),
      c.volumes_get_by_id p.volume_id = Except.ok (some vol) →
      vol.server = some sref →
      c.volumes_detach vol = Except.ok act →
      detach_volume c p = (Value.dict [
          ("success", Value.bool true), ("action", action_to_dict act)],
        [ClientCall.volumesGetById p.volume_id, ClientCall.volumesDetach vol.id])) ∧
    (∀ (c : Client) (p : ResizeVolumeParams) (vol : Volume) (act : Action),
      c.volumes_get_by_id p.volume_id = Except.ok (some vol) →
      vol.size < p.size →
      c.volumes_resize vol p.size = Except.ok act →
      resize_volume c p = (Value.dict [
          ("success", Value.bool true), ("action", action_to_dict act)],
        [ClientCall.volumesGetById p.volume_id, ClientCall.volumesResize vol.id p.size])) := by
  refine ⟨?_, ?_, ?_, ?_, ?_, ?_, ?_, ?_, ?_, ?_, ?_, ?_, ?_, ?_⟩
  · intro c
    exact ⟨pf_list_servers c, pf_list_images c, pf_list_server_types c, pf_list_locations c,
      pf_list_firewalls c, pf_list_volumes c, pf_list_ssh_keys c,
      fun p => pf_get_server c p, fun p => pf_create_server c p,
      fun p => pf_delete_server c p, fun p => pf_power_on c p,
      fun p => pf_power_off c p, fun p => pf_reboot c p,
      fun p => pf_get_firewall c p, fun p => pf_create_firewall c p,
      fun p => pf_update_firewall c p, fun p => pf_delete_firewall c p,
      fun p => pf_set_firewall_rules c p, fun p => pf_apply_firewall_to_resources c p,
      fun p => pf_remove_firewall_from_resources c p, fun p => pf_get_volume c p,
      fun p => pf_create_volume c p, fun p => pf_delete_volume c p,
      fun p => pf_attach_volume c p, fun p => pf_detach_volume c p,
      fun p => pf_resize_volume c p, fun p => pf_get_ssh_key c p,
      fun p => pf_create_ssh_key c p, fun p => pf_update_ssh_key c p,
      fun p => pf_delete_ssh_key c p⟩
  · intro c p sts imgs locs st img loc ks resp h1 h2 h3 h4 h5 h6 h7 h8
    cases hk : p.ssh_keys with
    | none =>
      rw [hk] at h7
      have hks := res_pure_ok h7
      subst hks
      simp [create_server, create_server_inner, M.catch, runH, M.bind, M.pure, callOp,
        hk, h1, h2, h3, h4, h5, h6, h8]
    | some l =>
      rw [hk] at h7
      have h7b : (buildSshKeys c l).res = Except.ok ks := h7
      simp [create_server, create_server_inner, M.catch, runH, M.bind, M.pure, callOp,
        hk, h1, h2, h3, h4, h5, h6, h7b, h8]
  · intro c p srv act h1 h2
    simp [delete_server, runH, M.bind, M.pure, callOp, h1, h2]
  · intro c p srv act h1 h2
    simp [power_on, runH, M.bind, M.pure, callOp, h1, h2]
  · intro c p srv act h1 h2
    simp [power_off, runH, M.bind, M.pure, callOp, h1, h2]
  · intro c p srv act h1 h2
    simp [reboot, runH, M.bind, M.pure, callOp, h1, h2]
  · intro c p resp h1 h2
    simp [create_firewall, runH, M.bind, M.pure, callOp, h1, h2]
  · intro c p fw acts h1 h2
    simp [set_firewall_rules, runH, M.bind, M.pure, callOp, h1, h2]
  · intro c p fw resources acts h1 h2 h3
    simp [apply_firewall_to_resources, runH, M.bind, M.pure, callOp, h1, h2, h3]
  · intro c p fw resources acts h1 h2 h3
    simp [remove_firewall_from_resources, runH, M.bind, M.pure, callOp, h1, h2, h3]
  · intro c p resp h1 h2 h3
    simp [create_volume, runH, M.bind, M.pure, callOp, h1, h2, h3]
  · intro c p vol srv act h1 h2 h3
    simp [attach_volume, runH, M.bind, M.pure, callOp, h1, h2, h3]
  · intro c p vol sref act h1 h2 h3
    simp [detach_volume, runH, M.bind, M.pure, callOp, h1, h2, h3]
  · intro c p vol act h1 h2 h3
    have hle : ¬ p.size ≤ vol.size := not_le.mpr h2
    simp [resize_volume, runH, M.bind, M.pure, callOp, h1, hle, h3]

/-- A concrete valid `create_server` request without SSH keys. -/
def cp10 : CreateServerParams :=
  { name := "web", server_type := "cx11", image := "ubuntu-22.04",
    location := some "nbg1", ssh_keys := none }

/-- Witness for C3: the action-returning conjuncts applied at the concrete
test client, every hypothesis discharged by computation. -/
theorem c3_witness :
    create_server testClient cp10 = (Value.dict [
        ("server", server_to_dict tServer),
        ("action", optAction (some tAction)),
        ("root_password", optStr (some "pw123"))],
      [ClientCall.serverTypesGetAll, ClientCall.imagesGetAll, ClientCall.locationsGetAll,
        ClientCall.serverTypesGetByName "cx11", ClientCall.imagesGetByName "ubuntu-22.04",
        ClientCall.locationsGetByName (some "nbg1"), ClientCall.serversCreate "web" "cx11"]) ∧
    delete_server testClient { server_id := 1 } = (Value.dict [
        ("success", Value.bool true), ("action", action_to_dict tAction)],
      [ClientCall.serversGetById 1, ClientCall.serversDelete 1]) ∧
    power_on testClient { server_id := 1 } = (Value.dict [
        ("success", Value.bool true), ("action", action_to_dict tAction)],
      [ClientCall.serversGetById 1, ClientCall.serversPowerOn 1]) ∧
    power_off testClient { server_id := 1 } = (Value.dict [
        ("success", Value.bool true), ("action", action_to_dict tAction)],
      [ClientCall.serversGetById 1, ClientCall.serversPowerOff 1]) ∧
    reboot testClient { server_id := 1 } = (Value.dict [
        ("success", Value.bool true), ("action", action_to_dict tAction)],
      [ClientCall.serversGetById 1, ClientCall.serversReboot 1]) ∧
    create_firewall testClient { name := "fwx" } = (Value.dict [
        ("firewall", firewall_to_dict tFirewall),
        ("actions", optActions (some [tAction]))],
      [ClientCall.firewallsCreate "fwx"]) ∧
    set_firewall_rules testClient { firewall_id := 3, rules := [] } = (Value.dict [
        ("success", Value.bool true), ("actions", optActions (some [tAction]))],
      [ClientCall.firewallsGetById 3, ClientCall.firewallsSetRules 3]) ∧
    apply_firewall_to_resources testClient { firewall_id := 3, resources := [] } =
      (Value.dict [
        ("success", Value.bool true), ("actions", optActions (some [tAction]))],
      [ClientCall.firewallsGetById 3, ClientCall.firewallsApplyToResources 3]) ∧
    remove_firewall_from_resources testClient { firewall_id := 3, resources := [] } =
      (Value.dict [
        ("success", Value.bool true), ("actions", optActions (some [tAction]))],
      [ClientCall.firewallsGetById 3, ClientCall.firewallsRemoveFromResources 3]) ∧
    create_volume testClient { name := "nv", size := 20 } = (Value.dict [
        ("volume", volume_to_dict tVolumeAttached),
        ("action", optAction (some tAction)),
        ("next_actions", optActions none)],
      [ClientCall.volumesCreate "nv" 20]) ∧
    attach_volume testClient { volume_id := 2, server_id := 1 } = (Value.dict [
        ("success", Value.bool true), ("action", action_to_dict tAction)],
      [ClientCall.volumesGetById 2, ClientCall.serversGetById 1,
        ClientCall.volumesAttach 2 1]) ∧
    detach_volume testClient { volume_id := 2 } = (Value.dict [
        ("success", Value.bool true), ("action", action_to_dict tAction)],
      [ClientCall.volumesGetById 2, ClientCall.volumesDetach 2]) ∧
    resize_volume testClient { volume_id := 2, size := 20 } = (Value.dict [
        ("success", Value.bool true), ("action", action_to_dict tAction)],
      [ClientCall.volumesGetById 2, ClientCall.volumesResize 2 20]) := by
  have h := c3_actions_returned_mid_flight
  exact ⟨h.2.1 testClient cp10 [tServerType] [tImage] [tLocation] tServerType tImage
      tLocation [] tCreateResp rfl rfl rfl rfl rfl rfl rfl rfl,
    h.2.2.1 testClient { server_id := 1 } tServer tAction rfl rfl,
    h.2.2.2.1 testClient { server_id := 1 } tServer tAction rfl rfl,
    h.2.2.2.2.1 testClient { server_id := 1 } tServer tAction rfl rfl,
    h.2.2.2.2.2.1 testClient { server_id := 1 } tServer tAction rfl rfl,
    h.2.2.2.2.2.2.1 testClient { name := "fwx" }
      { firewall := tFirewall, actions := some [tAction] } rfl rfl,
    h.2.2.2.2.2.2.2.1 testClient { firewall_id := 3, rules := [] } tFirewall [tAction] rfl rfl,
    h.2.2.2.2.2.2.2.2.1 testClient { firewall_id := 3, resources := [] } tFirewall []
      [tAction] rfl rfl rfl,
    h.2.2.2.2.2.2.2.2.2.1 testClient { firewall_id := 3, resources := [] } tFirewall []
      [tAction] rfl rfl rfl,
    h.2.2.2.2.2.2.2.2.2.2.1 testClient { name := "nv", size := 20 }
      { volume := tVolumeAttached, action := some tAction, next_actions := none } rfl rfl rfl,
    h.2.2.2.2.2.2.2.2.2.2.2.1 testClient { volume_id := 2, server_id := 1 }
      tVolumeAttached tServer tAction rfl rfl rfl,
    h.2.2.2.2.2.2.2.2.2.2.2.2.1 testClient { volume_id := 2 } tVolumeAttached
      { id := 1 } tAction rfl rfl rfl,
    h.2.2.2.2.2.2.2.2.2.2.2.2.2 testClient { volume_id := 2, size := 20 } tVolumeAttached
      tAction rfl (by decide) rfl⟩

/-- C4: `resize_volume` checks the requested size against the volume as
freshly fetched from the provider.  If the size is not strictly greater,
the handler returns the error envelope and the trace shows the fetch was
the only provider call (no resize).  If it is strictly greater and the
resize succeeds, the resize call is issued.  In full generality, a resize
call appears in the trace only when the freshly fetched volume's size is
strictly below the requested size. -/
theorem c4_resize_requires_strict_growth :
    ∀ (c : Client) (p : ResizeVolumeParams),
      (∀ vol, c.volumes_get_by_id p.volume_id = Except.ok (some vol) →
        p.size ≤ vol.size →
        resize_volume c p =
          (errDict (resizeTooSmallMsg p.size vol.size),
            [ClientCall.volumesGetById p.volume_id])) ∧
      (∀ vol act, c.volumes_get_by_id p.volume_id = Except.ok (some vol) →
        vol.size < p.size →
        c.volumes_resize vol p.size = Except.ok act →
        resize_volume c p =
          (Value.dict [("success", Value.bool true), ("action", action_to_dict act)],
            [ClientCall.volumesGetById p.volume_id,
              ClientCall.volumesResize vol.id p.size])) ∧
      (∀ i s, ClientCall.volumesResize i s ∈ (resize_volume c p).2 →
        ∃ vol, c.volumes_get_by_id p.volume_id = Except.ok (some vol) ∧
          vol.size < p.size ∧ i = vol.id ∧ s = p.size) := by
  intro c p
  refine ⟨?_, ?_, ?_⟩
  · intro vol h1 h2
    simp [resize_volume, runH, M.bind, M.pure, callOp, h1, h2]
  · intro vol act h1 h2 h3
    have hle : ¬ p.size ≤ vol.size := not_le.mpr h2
    simp [resize_volume, runH, M.bind, M.pure, callOp, h1, hle, h3]
  · intro i s hmem
    cases hv : c.volumes_get_by_id p.volume_id with
    | error e =>
      simp [resize_volume, runH, M.bind, M.pure, callOp, hv] at hmem
    | ok o =>
      cases o with
      | none => simp [resize_volume, runH, M.bind, M.pure, callOp, hv] at hmem
      | some vol =>
        by_cases hle : p.size ≤ vol.size
        · simp [resize_volume, runH, M.bind, M.pure, callOp, hv, hle] at hmem
        · cases hr : c.volumes_resize vol p.size with
          | error e =>
            simp [resize_volume, runH, M.bind, M.pure, callOp, hv, hle, hr] at hmem
            rcases hmem with ⟨hi, hs⟩
            exact ⟨vol, rfl, by omega, hi, hs⟩
          | ok act =>
            simp [resize_volume, runH, M.bind, M.pure, callOp, hv, hle, hr] at hmem
            rcases hmem with ⟨hi, hs⟩
            exact ⟨vol, rfl, by omega, hi, hs⟩

/-- Witness for C4: on the test client, resizing volume 2 (current size
10) to 10 is rejected without a resize call. -/
theorem c4_witness :
    resize_volume testClient { volume_id := 2, size := 10 } =
      (errDict (resizeTooSmallMsg 10 10), [ClientCall.volumesGetById 2]) :=
  (c4_resize_requires_strict_growth testClient { volume_id := 2, size := 10 }).1
    tVolumeAttached rfl (by decide)

/-- C5: `detach_volume` on a volume that freshly fetches with no attached
server returns the not-attached error envelope carrying the volume ID, and
the trace shows the fetch was the only provider call — the detach
operation is never invoked. -/
theorem c5_detach_requires_attached_server :
    ∀ (c : Client) (p : VolumeIdParam) (vol : Volume),
      c.volumes_get_by_id p.volume_id = Except.ok (some vol) →
      vol.server = none →
      detach_volume c p =
        (errDict (volumeNotAttachedMsg p.volume_id),
          [ClientCall.volumesGetById p.volume_id]) := by
  intro c p vol h1 h2
  simp [detach_volume, runH, M.bind, M.pure, callOp, h1, h2]

/-- Witness for C5: volume 5 of the test client has no server relation;
detaching it yields exactly the error envelope and a single fetch call. -/
theorem c5_witness :
    detach_volume testClient { volume_id := 5 } =
      (errDict (volumeNotAttachedMsg 5), [ClientCall.volumesGetById 5]) :=
  c5_detach_requires_attached_server testClient { volume_id := 5 } tVolumeDetached rfl rfl

/-! ## C6: validation in the firewall resource loop -/

/-- The mutating provider call of `apply_firewall_to_resources`. -/
def isApplyCall : ClientCall → Bool
  | ClientCall.firewallsApplyToResources _ => true
  | _ => false

/-- The resource list carries an entry whose cross-field requirement is
violated: type `"server"` without a (truthy) `server_id`, or type
`"label_selector"` without a (truthy) `label_selector`. -/
def containsInvalidEntry (l : List FirewallResourceParam) : Prop :=
  ∃ rp ∈ l,
    (rp.type = "server" ∧ truthyInt rp.server_id = false) ∨
    (rp.type = "label_selector" ∧ truthyStr rp.label_selector = false)

/-- Every call in the trace satisfies `P`. -/
def TrP {α : Type} (P : ClientCall → Prop) (x : M α) : Prop :=
  ∀ e ∈ x.tr, P e

theorem trp_pure {α : Type} {P : ClientCall → Prop} (a : α) : TrP P (M.pure a) := by
  intro e he
  cases he

theorem trp_bind {α β : Type} {P : ClientCall → Prop} {x : M α} {f : α → M β}
    (hx : TrP P x) (hf : ∀ a, TrP P (f a)) : TrP P (M.bind x f) := by
  unfold M.bind
  split
  · next a _ =>
    intro e he
    rcases List.mem_append.mp he with h | h
    · exact hx e h
    · exact hf a e h
  · next e _ => exact hx

theorem trp_callOp {α : Type} {P : ClientCall → Prop} (cc : ClientCall)
    (r : Except PyErr α) (h : P cc) : TrP P (callOp cc r) := by
  intro e he
  rcases List.mem_singleton.mp he with rfl
  exact h

/-- All provider calls issued by the resource-target loop are
`servers.get_by_id` lookups. -/
theorem buildResources_calls (c : Client) (l : List FirewallResourceParam) :
    TrP (fun e => ∃ i, e = ClientCall.serversGetById i) (buildResources c l) := by
  induction l with
  | nil => exact trp_pure _
  | cons rp rest ih =>
    unfold buildResources
    repeat'
      first
        | exact trp_pure _
        | exact ih
        | refine trp_bind (trp_callOp _ _ ⟨_, rfl⟩) ?_
        | refine trp_bind ?_ ?_
        | split
        | intro a

/-- If the resource loop completes with a built list (`Sum.inr`), every
entry of the input list satisfied its cross-field requirement. -/
theorem buildResources_inr_all_valid (c : Client) (l : List FirewallResourceParam) :
    ∀ rs, (buildResources c l).res = Except.ok (Sum.inr rs) →
      ∀ rp2 ∈ l,
        ¬ ((rp2.type = "server" ∧ truthyInt rp2.server_id = false) ∨
           (rp2.type = "label_selector" ∧ truthyStr rp2.label_selector = false)) := by
  induction l with
  | nil =>
    intro rs _ rp2 hm
    simp at hm
  | cons rp rest ih =>
    intro rs h rp2 hm
    unfold buildResources at h
    split at h
    · rename_i ht
      have ht2 : rp.type = "server" := by simpa using ht
      split at h
      · rename_i hsid
        simp [M.pure] at h
      · rename_i sid hsid
        split at h
        · simp [M.pure] at h
        · rename_i hz
          rcases res_bind_ok h with ⟨srv, _, h2⟩
          cases srv with
          | none => simp [M.pure] at h2
          | some server =>
            rcases res_bind_ok h2 with ⟨r, hr, h3⟩
            have h4 := res_pure_ok h3
            cases r with
            | inl w => simp at h4
            | inr rs2 =>
              rcases List.mem_cons.mp hm with heq | hm2
              · subst heq
                intro hbad
                rcases hbad with ⟨_, hfalse⟩ | ⟨hty, _⟩
                · rw [hsid] at hfalse
                  simp [truthyInt] at hfalse
                  exact hz (by simp [hfalse])
                · exact absurd (ht2.symm.trans hty) (by decide)
              · exact ih rs2 hr rp2 hm2
    · split at h
      · rename_i ht hlt
        have hlt2 : rp.type = "label_selector" := by simpa using hlt
        split at h
        · rename_i hls
          simp [M.pure] at h
        · rename_i sel hls
          split at h
          · simp [M.pure] at h
          · rename_i hse
            rcases res_bind_ok h with ⟨r, hr, h3⟩
            have h4 := res_pure_ok h3
            cases r with
            | inl w => simp at h4
            | inr rs2 =>
              rcases List.mem_cons.mp hm with heq | hm2
              · subst heq
                intro hbad
                rcases hbad with ⟨hty, _⟩ | ⟨_, hfalse⟩
                · exact ht (by simp [hty])
                · rw [hls] at hfalse
                  simp [truthyStr] at hfalse
                  exact hse (by simp [hfalse])
              · exact ih rs2 hr rp2 hm2
      · simp [M.pure] at h

/-- The C6 counterexample request: the first resource entry references an
existing-ID lookup that fails (server 99), the second entry is of type
"server" with `server_id` missing. -/
def c6Params : FirewallResourcesParams :=
  { firewall_id := 3,
    resources := [
      { type := "server", server_id := some 99, label_selector := none },
      { type := "server", server_id := none, label_selector := none }] }

/-- C6 counterexample: the resource list contains a type-"server" entry
with `server_id` missing, yet the handler resolves the earlier entry first
— the trace contains a `servers.get_by_id 99` call beyond the firewall
lookup — and the returned error is the not-found error for server 99, not
the validation error. -/
theorem c6_counterexample :
    c6Params.resources = [
      { type := "server", server_id := some 99, label_selector := none },
      { type := "server", server_id := none, label_selector := none }] ∧
    apply_firewall_to_resources testClient c6Params =
      (errDict (serverNotFoundMsg 99),
        [ClientCall.firewallsGetById 3, ClientCall.serversGetById 99]) ∧
    serverNotFoundMsg 99 ≠ serverIdRequiredMsg := by
  refine ⟨rfl, ?_, by decide⟩
  rfl

/-- C6 (amended): entries are validated in list order, so earlier entries
may incur server resolutions first.  What holds is: (1) whenever the
resource list contains an invalid entry (type "server" without server_id,
or type "label_selector" without label_selector), the handler returns an
error envelope and never issues the firewall-application (mutating) call —
the only calls beyond the firewall lookup are `servers.get_by_id`
resolutions; (2)/(3) when the invalid entry is the first entry of the
list, the handler returns exactly the validation error and the firewall
lookup is the only provider call. -/
theorem c6_invalid_resource_entry_validation :
    ∀ (c : Client) (p : FirewallResourcesParams),
      (containsInvalidEntry p.resources →
        (∀ e ∈ (apply_firewall_to_resources c p).2, isApplyCall e = false) ∧
        isErrEnvelope (apply_firewall_to_resources c p).1 = true) ∧
      (∀ rp rest fw, p.resources = rp :: rest → rp.type = "server" →
        rp.server_id = none →
        c.firewalls_get_by_id p.firewall_id = Except.ok (some fw) →
        apply_firewall_to_resources c p =
          (errDict serverIdRequiredMsg, [ClientCall.firewallsGetById p.firewall_id])) ∧
      (∀ rp rest fw, p.resources = rp :: rest → rp.type = "label_selector" →
        rp.label_selector = none →
        c.firewalls_get_by_id p.firewall_id = Except.ok (some fw) →
        apply_firewall_to_resources c p =
          (errDict labelSelectorRequiredMsg,
            [ClientCall.firewallsGetById p.firewall_id])) := by
  intro c p
  refine ⟨?_, ?_, ?_⟩
  · intro hbad
    have hnoinr : ∀ rs, (buildResources c p.resources).res ≠ Except.ok (Sum.inr rs) := by
      intro rs hres
      rcases hbad with ⟨rp, hm, hb⟩
      exact buildResources_inr_all_valid c p.resources rs hres rp hm hb
    cases hfw : c.firewalls_get_by_id p.firewall_id with
    | error e =>
      have hres : apply_firewall_to_resources c p =
          (errDict ("Failed to apply firewall to resources: " ++ e.msg),
            [ClientCall.firewallsGetById p.firewall_id]) := by
        simp [apply_firewall_to_resources, runH, M.bind, M.pure, callOp, hfw]
      rw [hres]
      refine ⟨?_, rfl⟩
      intro e2 he2
      rcases List.mem_singleton.mp he2 with rfl
      rfl
    | ok o =>
      cases o with
      | none =>
        have hres : apply_firewall_to_resources c p =
            (errDict (firewallNotFoundMsg p.firewall_id),
              [ClientCall.firewallsGetById p.firewall_id]) := by
          simp [apply_firewall_to_resources, runH, M.bind, M.pure, callOp, hfw]
        rw [hres]
        refine ⟨?_, rfl⟩
        intro e2 he2
        rcases List.mem_singleton.mp he2 with rfl
        rfl
      | some fw =>
        cases hbres : (buildResources c p.resources).res with
        | error e2 =>
          have hres : apply_firewall_to_resources c p =
              (errDict ("Failed to apply firewall to resources: " ++ e2.msg),
                ClientCall.firewallsGetById p.firewall_id ::
                  (buildResources c p.resources).tr) := by
            simp [apply_firewall_to_resources, runH, M.bind, M.pure, callOp, hfw, hbres]
          rw [hres]
          refine ⟨?_, rfl⟩
          intro e3 he3
          rcases List.mem_cons.mp he3 with rfl | h3
          · rfl
          · rcases buildResources_calls c p.resources e3 h3 with ⟨i, rfl⟩
            rfl
        | ok r =>
          cases r with
          | inl v =>
            have hres : apply_firewall_to_resources c p =
                (v, ClientCall.firewallsGetById p.firewall_id ::
                  (buildResources c p.resources).tr) := by
              simp [apply_firewall_to_resources, runH, M.bind, M.pure, callOp, hfw, hbres]
            rw [hres]
            refine ⟨?_, ?_⟩
            · intro e3 he3
              rcases List.mem_cons.mp he3 with rfl | h3
              · rfl
              · rcases buildResources_calls c p.resources e3 h3 with ⟨i, rfl⟩
                rfl
            · exact inlerr_buildResources c p.resources (Sum.inl v) hbres v rfl
          | inr rs => exact absurd hbres (hnoinr rs)
  · intro rp rest fw hres hty hsid hfw
    simp [apply_firewall_to_resources, buildResources, runH, M.bind, M.pure, callOp,
      hfw, hres, hty, hsid]
  · intro rp rest fw hres hty hls hfw
    simp [apply_firewall_to_resources, buildResources, runH, M.bind, M.pure, callOp,
      hfw, hres, hty, hls]

/-- The C6 witness requests: a single invalid entry heads the list. -/
def c6BadServer : FirewallResourcesParams :=
  { firewall_id := 3,
    resources := [{ type := "server", server_id := none, label_selector := none }] }

/-- Companion witness request with a bare label_selector entry. -/
def c6BadLabel : FirewallResourcesParams :=
  { firewall_id := 3,
    resources := [{ type := "label_selector", server_id := none, label_selector := none }] }

/-- Witness for C6 (amended): applied at the concrete test client. -/
theorem c6_witness :
    apply_firewall_to_resources testClient c6BadServer =
      (errDict serverIdRequiredMsg, [ClientCall.firewallsGetById 3]) ∧
    apply_firewall_to_resources testClient c6BadLabel =
      (errDict labelSelectorRequiredMsg, [ClientCall.firewallsGetById 3]) ∧
    isErrEnvelope (apply_firewall_to_resources testClient c6BadServer).1 = true := by
  have h := c6_invalid_resource_entry_validation testClient c6BadServer
  have h2 := c6_invalid_resource_entry_validation testClient c6BadLabel
  refine ⟨h.2.1 _ _ tFirewall rfl rfl rfl rfl, h2.2.2 _ _ tFirewall rfl rfl rfl rfl, ?_⟩
  exact (h.1 ⟨{ type := "server", server_id := none, label_selector := none },
    List.Mem.head _, Or.inl ⟨rfl, rfl⟩⟩).2

/-- C7: the Shape Converters are total Lean functions over the full domain
types (no partiality anywhere), and every absent optional sub-object is
rendered as a null/absent value: in particular a Server with no datacenter
converts with `location: null` (and `datacenter: null`), and a Volume with
no attached server converts with `server: null`. -/
theorem c7_converters_total_on_absent_subobjects :
    ∀ (s : Server) (vol : Volume) (k : SSHKey) (fw : Firewall),
      (s.datacenter = none →
        getField (server_to_dict s) "datacenter" = some Value.null ∧
        getField (server_to_dict s) "location" = some Value.null) ∧
      (s.server_type = none →
        getField (server_to_dict s) "server_type" = some Value.null) ∧
      (s.image = none → getField (server_to_dict s) "image" = some Value.null) ∧
      (s.created = none → getField (server_to_dict s) "created" = some Value.null) ∧
      (s.public_net = none → getField (server_to_dict s) "public_net" =
        some (Value.dict [("ipv4", Value.null), ("ipv6", Value.null)])) ∧
      (s.protection = none → getField (server_to_dict s) "protection" =
        some (Value.dict [("delete", Value.bool false), ("rebuild", Value.bool false)])) ∧
      (s.volumes = none → getField (server_to_dict s) "volumes" = some (Value.list [])) ∧
      (vol.server = none → getField (volume_to_dict vol) "server" = some Value.null) ∧
      (vol.location = none → getField (volume_to_dict vol) "location" = some Value.null) ∧
      (vol.created = none → getField (volume_to_dict vol) "created" = some Value.null) ∧
      (vol.protection = none → getField (volume_to_dict vol) "protection" =
        some (Value.dict [("delete", Value.bool false)])) ∧
      (k.created = none → getField (ssh_key_to_dict k) "created" = some Value.null) ∧
      (fw.created = none → getField (firewall_to_dict fw) "created" = some Value.null) ∧
      (fw.rules = none → getField (firewall_to_dict fw) "rules" = some (Value.list [])) ∧
      (fw.applied_to = none →
        getField (firewall_to_dict fw) "applied_to" = some (Value.list [])) := by
  intro s vol k fw
  refine ⟨?_, ?_, ?_, ?_, ?_, ?_, ?_, ?_, ?_, ?_, ?_, ?_, ?_, ?_, ?_⟩ <;>
    intro h <;>
    simp [server_to_dict, volume_to_dict, ssh_key_to_dict, firewall_to_dict,
      getField, getKey, optTime, h]

/-- Witness for C7: the concrete fixtures have every optional sub-object
absent; each conjunct's hypothesis is discharged by `rfl`. -/
theorem c7_witness :
    getField (server_to_dict tServer) "location" = some Value.null ∧
    getField (server_to_dict tServer) "datacenter" = some Value.null ∧
    getField (server_to_dict tServer) "server_type" = some Value.null ∧
    getField (server_to_dict tServer) "image" = some Value.null ∧
    getField (server_to_dict tServer) "created" = some Value.null ∧
    getField (server_to_dict tServer) "public_net" =
      some (Value.dict [("ipv4", Value.null), ("ipv6", Value.null)]) ∧
    getField (server_to_dict tServer) "protection" =
      some (Value.dict [("delete", Value.bool false), ("rebuild", Value.bool false)]) ∧
    getField (server_to_dict tServer) "volumes" = some (Value.list []) ∧
    getField (volume_to_dict tVolumeDetached) "server" = some Value.null ∧
    getField (volume_to_dict tVolumeDetached) "location" = some Value.null ∧
    getField (volume_to_dict tVolumeDetached) "created" = some Value.null ∧
    getField (volume_to_dict tVolumeDetached) "protection" =
      some (Value.dict [("delete", Value.bool false)]) ∧
    getField (ssh_key_to_dict tSSHKey) "created" = some Value.null ∧
    getField (firewall_to_dict tFirewall) "created" = some Value.null ∧
    getField (firewall_to_dict tFirewall) "rules" = some (Value.list []) ∧
    getField (firewall_to_dict tFirewall) "applied_to" = some (Value.list []) := by
  have h := c7_converters_total_on_absent_subobjects tServer tVolumeDetached tSSHKey tFirewall
  exact ⟨(h.1 rfl).2, (h.1 rfl).1, h.2.1 rfl, h.2.2.1 rfl, h.2.2.2.1 rfl,
    h.2.2.2.2.1 rfl, h.2.2.2.2.2.1 rfl, h.2.2.2.2.2.2.1 rfl,
    h.2.2.2.2.2.2.2.1 rfl, h.2.2.2.2.2.2.2.2.1 rfl, h.2.2.2.2.2.2.2.2.2.1 rfl,
    h.2.2.2.2.2.2.2.2.2.2.1 rfl, h.2.2.2.2.2.2.2.2.2.2.2.1 rfl,
    h.2.2.2.2.2.2.2.2.2.2.2.2.1 rfl, h.2.2.2.2.2.2.2.2.2.2.2.2.2.1 rfl,
    h.2.2.2.2.2.2.2.2.2.2.2.2.2.2 rfl⟩

/-- The C8 counterexample rule: `port` is set, but to the empty string,
which Python truthiness treats as unset. -/
def rule8 : FirewallRule :=
  { direction := "in", protocol := "tcp", source_ips := ["0.0.0.0/0"],
    port := some "", destination_ips := none, description := none }

/-- The C8 counterexample firewall carrying that one rule. -/
def fw8 : Firewall :=
  { id := 9, name := "f8", rules := some [rule8], applied_to := none,
    labels := Value.null, created := none }

/-- C8 counterexample: the rule's `port` field is set (to `""`), yet the
converted record omits the `port` key — the `if rule.port:` truthiness
check drops set-but-empty values, so "present iff set" fails. -/
theorem c8_counterexample :
    rule8.port = some "" ∧
    getField (firewall_to_dict fw8) "rules" = some (Value.list [ruleToDict rule8]) ∧
    hasField (ruleToDict rule8) "port" = false := by
  refine ⟨rfl, rfl, rfl⟩

/-- C8 (amended): every converted rule record always contains `direction`,
`protocol` and `source_ips`; it contains `port`, `destination_ips` or
`description` exactly when that field is set to a Python-truthy value
(non-`None` and non-empty) — a field that is unset, the empty string, or
the empty list is omitted. -/
theorem c8_rule_fields_present_iff_truthy :
    ∀ (fw : Firewall) (rule : FirewallRule),
      getField (firewall_to_dict fw) "rules" =
        some (Value.list ((fw.rules.getD []).map ruleToDict)) ∧
      hasField (ruleToDict rule) "direction" = true ∧
      hasField (ruleToDict rule) "protocol" = true ∧
      hasField (ruleToDict rule) "source_ips" = true ∧
      hasField (ruleToDict rule) "port" = truthyStr rule.port ∧
      hasField (ruleToDict rule) "destination_ips" = truthyList rule.destination_ips ∧
      hasField (ruleToDict rule) "description" = truthyStr rule.description := by
  intro fw rule
  refine ⟨?_, ?_⟩
  · cases hr : fw.rules <;> simp [firewall_to_dict, getField, getKey, hr]
  · cases hb1 : truthyStr rule.port <;>
      cases hb2 : truthyList rule.destination_ips <;>
      cases hb3 : truthyStr rule.description <;>
      simp [ruleToDict, hasField, getField, getKey, hb1, hb2, hb3]

/-- The context loop returns a token exactly when the first matching
context carries a non-empty token. -/
theorem findToken_ok_iff (active : String) (l : List HcloudContext) (t : String) :
    findToken active l = Except.ok t ↔
      ∃ ctx, firstMatch active l = some ctx ∧ ctx.token = some t ∧ t ≠ "" := by
  induction l with
  | nil => simp [findToken, firstMatch]
  | cons ctx rest ih =>
    unfold findToken firstMatch
    by_cases hn : (ctx.name == some active) = true
    · simp only [if_pos hn]
      cases ht : ctx.token with
      | none => simp [ht]
      | some tok =>
        by_cases hz : (tok == "") = true
        · have htz : tok = "" := by simpa using hz
          subst htz
          simp [ht]
          exact fun h => h.symm
        · have hne : tok ≠ "" := by simpa using hz
          simp [hz, ht]
          rintro rfl
          exact hne
    · simp only [if_neg hn]
      exact ih

/-- An `Except` value is an `ok` or an `error`. -/
theorem except_ok_or_error {α β : Type} (x : Except α β) :
    (∃ b, x = Except.ok b) ∨ (∃ e, x = Except.error e) := by
  cases x with
  | ok b => exact Or.inl ⟨b, rfl⟩
  | error e => exact Or.inr ⟨e, rfl⟩

/-- Startup fails exactly when credential resolution fails: the client is
constructed only from a returned token. -/
theorem startup_error_iff (f : CliConfigFile) :
    (∃ e, startup f = Except.error e) ↔ (∃ e, authenticate f = Except.error e) := by
  unfold startup
  cases h : authenticate f with
  | ok t => simp
  | error e => simp

/-- `badCliConfig` on a parsed file, unfolded. -/
theorem badCliConfig_parsed (cfg : HcloudConfig) :
    badCliConfig (CliConfigFile.parsed cfg) ↔
      (truthyStr cfg.active_context = false ∨
        (∃ active, cfg.active_context = some active ∧
          (firstMatch active cfg.contexts = none ∨
            ∃ ctx, firstMatch active cfg.contexts = some ctx ∧
              truthyStr ctx.token = false))) := Iff.rfl

/-- The context loop raises exactly when no context matches or the first
matching context has a falsy token. -/
theorem findToken_error_iff (active : String) (l : List HcloudContext) :
    (∃ e, findToken active l = Except.error e) ↔
      (firstMatch active l = none ∨
        ∃ ctx, firstMatch active l = some ctx ∧ truthyStr ctx.token = false) := by
  have htot := except_ok_or_error (findToken active l)
  cases hfm : firstMatch active l with
  | none =>
    constructor
    · intro _
      exact Or.inl rfl
    · intro _
      rcases htot with ⟨t, ht⟩ | ⟨e, he⟩
      · rcases (findToken_ok_iff active l t).mp ht with ⟨ctx, hc, _⟩
        rw [hfm] at hc
        cases hc
      · exact ⟨e, he⟩
  | some ctx =>
    constructor
    · rintro ⟨e, he⟩
      right
      refine ⟨ctx, rfl, ?_⟩
      cases htk : ctx.token with
      | none => rfl
      | some tok =>
        by_cases hz : (tok == "") = true
        · simp [truthyStr, hz]
        · exfalso
          have hok := (findToken_ok_iff active l tok).mpr ⟨ctx, hfm, htk, by simpa using hz⟩
          rw [hok] at he
          cases he
    · rintro (h | ⟨ctx2, hc2, htk2⟩)
      · cases h
      · injection hc2 with hc3
        subst hc3
        rcases htot with ⟨t, ht⟩ | ⟨e, he⟩
        · rcases (findToken_ok_iff active l t).mp ht with ⟨ctx3, hc4, htk3, hne3⟩
          rw [hfm] at hc4
          injection hc4 with hc5
          subst hc5
          rw [htk3] at htk2
          simp [truthyStr] at htk2
          exact absurd htk2 hne3
        · exact ⟨e, he⟩

/-- C9: credential resolution fails fatally at process startup exactly
when the configuration file is absent, its syntax is malformed, the
active context name is missing (or empty \u2014 Python truthiness), the active
context record is absent from the contexts list, or the matched context's
token field is empty or missing; and `authenticate` returns a token only
when none of these hold \u2014 the token of the first matching context \u2014 in
which case (and only then) the provider client is constructed from it. -/
theorem c9_credential_resolution_fatal_at_startup :
    ∀ f : CliConfigFile,
      ((∃ e, startup f = Except.error e) ↔ badCliConfig f) ∧
      (∀ t, authenticate f = Except.ok t →
        ∃ cfg active ctx, f = CliConfigFile.parsed cfg ∧
          cfg.active_context = some active ∧ active ≠ "" ∧
          firstMatch active cfg.contexts = some ctx ∧ ctx.token = some t ∧ t ≠ "") ∧
      (∀ t, authenticate f = Except.ok t ↔ startup f = Except.ok { token := t }) := by
  intro f
  refine ⟨?_, ?_, ?_⟩
  · rw [startup_error_iff]
    cases f with
    | absent => simp [authenticate, badCliConfig]
    | malformed d => simp [authenticate, badCliConfig]
    | parsed cfg =>
      rw [badCliConfig_parsed]
      cases hac : cfg.active_context with
      | none => simp [authenticate, hac, truthyStr]
      | some active =>
        by_cases ha : (active == "") = true
        · have haz : active = "" := by simpa using ha
          subst haz
          simp [authenticate, hac, truthyStr]
        · have hane : active ≠ "" := by simpa using ha
          simp only [authenticate, hac, if_neg ha]
          rw [findToken_error_iff]
          constructor
          · intro h
            right
            exact ⟨active, rfl, h⟩
          · rintro (h | ⟨active2, ha2, h⟩)
            · simp [truthyStr] at h
              exact absurd h hane
            · injection ha2 with ha3
              subst ha3
              exact h
  · intro t hok
    cases f with
    | absent => simp [authenticate] at hok
    | malformed d => simp [authenticate] at hok
    | parsed cfg =>
      cases hac : cfg.active_context with
      | none => simp [authenticate, hac] at hok
      | some active =>
        by_cases ha : (active == "") = true
        · simp [authenticate, hac, ha] at hok
        · simp only [authenticate, hac, if_neg ha] at hok
          rcases (findToken_ok_iff active cfg.contexts t).mp hok with ⟨ctx, hfm, htk, hne⟩
          exact ⟨cfg, active, ctx, rfl, hac, by simpa using ha, hfm, htk, hne⟩
  · intro t
    unfold startup
    cases ha : authenticate f with
    | ok t2 => simp [ClientHandle.mk.injEq]
    | error e => simp


/-- A parsed configuration whose active context resolves to a token. -/
def goodCfg : HcloudConfig :=
  { active_context := some "prod",
    contexts := [{ name := some "prod", token := some "tok123" }] }

/-- Witness for C9: on the good configuration `authenticate` returns the
matched token and startup constructs the client from it; on an absent
file, startup fails. -/
theorem c9_witness :
    (∃ cfg active ctx, CliConfigFile.parsed goodCfg = CliConfigFile.parsed cfg ∧
      cfg.active_context = some active ∧ active ≠ "" ∧
      firstMatch active cfg.contexts = some ctx ∧ ctx.token = some "tok123" ∧
      "tok123" ≠ "") ∧
    startup (CliConfigFile.parsed goodCfg) = Except.ok { token := "tok123" } ∧
    (∃ e, startup CliConfigFile.absent = Except.error e) := by
  have h := c9_credential_resolution_fatal_at_startup (CliConfigFile.parsed goodCfg)
  have h2 := c9_credential_resolution_fatal_at_startup CliConfigFile.absent
  exact ⟨h.2.1 "tok123" rfl, (h.2.2 "tok123").mp rfl, h2.1.mpr trivial⟩

/-- C10: a successful `create_server` envelope carries, besides the server
record and the (possibly null) action record, a `root_password` field
taken verbatim from the provider's create response (`response.root_password`);
and under the provider contract that a root password is only returned when
the server was created without SSH keys, the envelope's `root_password` is
non-null only when the resolved SSH key list was empty. -/
theorem c10_create_server_returns_root_password :
    ∀ (c : Client) (p : CreateServerParams) (sts : List ServerType) (imgs : List Image)
      (locs : List Location) (st : ServerType) (img : Image) (loc : Location)
      (ks : List SSHKey) (resp : CreateServerResponse),
      c.server_types_get_all = Except.ok sts →
      c.images_get_all = Except.ok imgs →
      c.locations_get_all = Except.ok locs →
      c.server_types_get_by_name p.server_type = Except.ok (some st) →
      c.images_get_by_name p.image = Except.ok (some img) →
      c.locations_get_by_name p.location = Except.ok (some loc) →
      (match p.ssh_keys with
        | some l => buildSshKeys c l
        | none => M.pure []).res = Except.ok ks →
      c.servers_create p.name st img loc ks = Except.ok resp →
      (create_server c p).1 = Value.dict [
          ("server", server_to_dict resp.server),
          ("action", optAction resp.action),
          ("root_password", optStr resp.root_password)] ∧
      getField (create_server c p).1 "root_password" = some (optStr resp.root_password) ∧
      ((∀ pw, resp.root_password = some pw → ks = []) →
        getField (create_server c p).1 "root_password" ≠ some Value.null → ks = []) := by
  intro c p sts imgs locs st img loc ks resp h1 h2 h3 h4 h5 h6 h7 h8
  have hmain : (create_server c p).1 = Value.dict [
      ("server", server_to_dict resp.server),
      ("action", optAction resp.action),
      ("root_password", optStr resp.root_password)] := by
    cases hk : p.ssh_keys with
    | none =>
      rw [hk] at h7
      have hks := res_pure_ok h7
      subst hks
      simp [create_server, create_server_inner, M.catch, runH, M.bind, M.pure, callOp,
        hk, h1, h2, h3, h4, h5, h6, h8]
    | some l =>
      rw [hk] at h7
      have h7b : (buildSshKeys c l).res = Except.ok ks := h7
      simp [create_server, create_server_inner, M.catch, runH, M.bind, M.pure, callOp,
        hk, h1, h2, h3, h4, h5, h6, h7b, h8]
  refine ⟨hmain, ?_, ?_⟩
  · rw [hmain]
    rfl
  · intro hcontract hne
    cases hpw : resp.root_password with
    | none =>
      exfalso
      apply hne
      rw [hmain, hpw]
      rfl
    | some pw => exact hcontract pw hpw

/-- Witness for C10: the test client's create response carries root
password "pw123"; the envelope holds it verbatim. -/
theorem c10_witness :
    (create_server testClient cp10).1 = Value.dict [
      ("server", server_to_dict tServer),
      ("action", optAction (some tAction)),
      ("root_password", optStr (some "pw123"))] ∧
    getField (create_server testClient cp10).1 "root_password" =
      some (Value.str "pw123") ∧
    ([] : List SSHKey) = [] := by
  have h := c10_create_server_returns_root_password testClient cp10 [tServerType]
    [tImage] [tLocation] tServerType tImage tLocation [] tCreateResp
    rfl rfl rfl rfl rfl rfl rfl rfl
  exact ⟨h.1, h.2.1, h.2.2 (fun _ _ => rfl)
    (fun hx => Value.noConfusion (Option.some.inj hx))⟩

end McpHetzner
